import Mathlib

/-! WiFi station module: `components/modules/wifi_sta.c`

A shallow embedding of the station-mode Lua bindings: the scan coordinator
(`wifi_sta_scan`, `on_scan_done`) and the configuration marshaller
(`wifi_sta_config`, `wifi_sta_getconfig`).

Conventions of the embedding:

* A Lua string is a byte string; it is carried as a `List Char`, one `Char`
  per byte.  A C string is the part of such a list before its first zero byte.
* The Lua stack is not modelled: every `lua_getfield` / `luaL_check*` pair of
  the C text becomes the corresponding function applied to the field value.
* `luaL_error` and the `luaL_check*` helpers leave the C function by a long
  jump; here they are the `error` results of `Except`.
* Calls into the radio driver and into Lua callbacks are recorded in traces.
* Lua numbers with a fractional part are outside the embedding.
-/

namespace WifiSta

/-! ## Lua values -/

/-- A Lua value, as far as the C API of this module tells values apart.
`other` stands for any value that is neither nil, boolean, number, string nor
function (a nested table, a userdata, a thread). -/
inductive LuaVal where
  | nil
  | bool (b : Bool)
  | int (v : Int)
  | str (s : List Char)
  | func (id : Nat)
  | other
  deriving DecidableEq, Repr

/-- A Lua table with string keys: the first binding of a key is the live one,
a key without binding reads as nil. -/
abbrev LuaTable := List (String × LuaVal)

/-- An argument of a Lua-callable C function. -/
inductive LuaArg where
  | val (v : LuaVal)
  | table (t : LuaTable)
  deriving DecidableEq, Repr

/-- The errors this module raises.  `bad_argument what` is the error of a
`luaL_check*` / `luaL_opt*` helper, `what` naming the argument or table field
that was being read; the others are the `luaL_error` calls of the file. -/
inductive LuaError where
  | bad_argument (what : String)
  /-- Text: "scan already in progress". -/
  | scan_in_progress
  /-- Text: "invalid BSSID: %s". -/
  | invalid_bssid (bssid : List Char)
  /-- Text: "failed to update wifi storage, code %d". -/
  | storage_failed (code : Int)
  /-- Text: "failed to set wifi config, code %d". -/
  | set_config_failed (code : Int)
  /-- Text: "failed to get config, code %d". -/
  | get_config_failed (code : Int)
  /-- Text: "failed to start scan, code %d". -/
  | scan_start_failed (code : Int)
  deriving DecidableEq, Repr

deriving instance DecidableEq for Except

/-- Value of `LUA_NOREF` in `lauxlib.h`. -/
def LUA_NOREF : Int := -2

/-- Value of `LUA_REFNIL` in `lauxlib.h`. -/
def LUA_REFNIL : Int := -1

/-- Value of `ESP_OK` in `esp_err.h`. -/
def ESP_OK : Int := 0

/-- Conversion of an integer to the 32-bit `int`. -/
def to_int32 (v : Int) : Int := (v + 2147483648) % 4294967296 - 2147483648

/-- Conversion of an integer to a 32-bit unsigned type, such as an
enumeration without negative enumerators. -/
def to_uint32 (v : Int) : Int := v % 4294967296

/-- The C string inside a byte string: the bytes before the first zero byte. -/
def cstr (s : List Char) : List Char :=
  s.takeWhile (fun c => c ≠ Char.ofNat 0)

/-- The call `lua_getfield (L, idx, key)` on a table value. -/
def lua_getfield : LuaTable → String → LuaVal
  | [], _ => .nil
  | (k, v) :: rest, key => if k = key then v else lua_getfield rest key

/-- The call `lua_setfield (L, -2, key)`: binds `key`, replacing an older binding. -/
def lua_setfield (t : LuaTable) (key : String) (v : LuaVal) : LuaTable :=
  t.filter (fun e => e.1 ≠ key) ++ [(key, v)]

/-- The test `lua_isnoneornil`. -/
def lua_isnoneornil (v : LuaVal) : Bool :=
  match v with
  | .nil => true
  | _ => false

/-- The n-th argument of a call (1-based); an absent argument reads as nil. -/
def lua_arg (args : List LuaArg) (n : Nat) : LuaArg :=
  args.getD (n - 1) (.val .nil)

/-! ## Collaborators that `wifi_sta.c` only declares -/

/-- Outcome of `luaM_malloc`: a block, a NULL pointer, or a raised memory error. -/
inductive Alloc where
  | block
  | null
  | raised
  deriving DecidableEq, Repr

/-- One access point as reported by the driver (`wifi_ap_record_t`), limited
to the members `on_scan_done` reads. -/
structure wifi_ap_record_t where
  bssid : List Nat
  ssid : List Char
  primary : Nat
  second : Nat
  rssi : Int
  authmode : Int
  deriving DecidableEq, Repr

/-- The scan request handed to the driver (`wifi_scan_config_t`), limited to
the members `wifi_sta_scan` writes; `none` is a NULL pointer. -/
structure wifi_scan_config_t where
  ssid : Option (List Char)
  bssid : Option (List Char)
  channel : Nat
  show_hidden : Bool
  deriving DecidableEq, Repr

/-- Pieces of the Lua runtime and of `wifi_common.h` that the file uses but
does not define; they are parameters of the embedding.

* `int2str`: the text `lua_tolstring` gives for a number;
* `str2int`: the integer `lua_tointeger` reads from a string, if any;
* `luaL_totoggle`: the boolean read of a toggle field;
* `DEFAULT_SAVE`: the default of the `save` argument;
* `luaM_malloc`: the allocator, by requested size in bytes;
* `sizeof_ap_record`: `sizeof (wifi_ap_record_t)`;
* `wifi_second_chan_names`: the bandwidth name table;
* `ULONG_BITS`: the width of `unsigned long`, in which `sscanf` converts a
  hexadecimal field;
* `scanf_pushback_x`: whether `sscanf`, after a `0x` that no hexadecimal digit
  follows, puts the `x` back into the input (it converts the `0` either way);
* `scan_keys_behind`, `sort_keys_behind`: the pointer cells that lie in
  memory behind the arrays `keys` of lines 316 and 332, up to the first NULL
  (`none` is a NULL cell, and the end of the list stands for one);
* `scan_vals_behind`, `sort_vals_behind`: the words that lie behind the
  arrays `vals` of lines 313 and 329, by offset. -/
structure Host where
  int2str : Int → List Char
  str2int : List Char → Option Int
  luaL_totoggle : LuaVal → Bool
  DEFAULT_SAVE : Bool
  luaM_malloc : Nat → Alloc
  sizeof_ap_record : Nat
  wifi_second_chan_names : Nat → List Char
  ULONG_BITS : Nat
  scanf_pushback_x : Bool
  scan_keys_behind : List (Option (List Char))
  scan_vals_behind : Nat → Int
  sort_keys_behind : List (Option (List Char))
  sort_vals_behind : Nat → Int

/-! ## Helpers of the Lua auxiliary library -/

/-- The check `luaL_checktable (L, n)`. -/
def luaL_checktable (what : String) (a : LuaArg) : Except LuaError LuaTable :=
  match a with
  | .table t => .ok t
  | .val _ => .error (.bad_argument what)

/-- The check `luaL_checkfunction (L, n)`. -/
def luaL_checkfunction (what : String) (a : LuaArg) : Except LuaError LuaVal :=
  match a with
  | .val (.func id) => .ok (.func id)
  | _ => .error (.bad_argument what)

/-- The call `luaL_checklstring`: a string is taken as it is, a number is
converted to its text, anything else is an error. -/
def luaL_checklstring (h : Host) (what : String) (v : LuaVal) : Except LuaError (List Char) :=
  match v with
  | .str s => .ok s
  | .int n => .ok (h.int2str n)
  | _ => .error (.bad_argument what)

/-- The call `luaL_optlstring (L, idx, def, &len)`. -/
def luaL_optlstring (h : Host) (what : String) (v : LuaVal) (dflt : List Char) :
    Except LuaError (List Char) :=
  if lua_isnoneornil v then .ok dflt else luaL_checklstring h what v

/-- The call `luaL_optstring (L, idx, NULL)`: NULL for nil, else the C string. -/
def luaL_optstring (h : Host) (what : String) (v : LuaVal) : Except LuaError (Option (List Char)) :=
  if lua_isnoneornil v then .ok none
  else match luaL_checklstring h what v with
    | .ok s => .ok (some (cstr s))
    | .error e => .error e

/-- The call `luaL_checkinteger`: a number, or a string that reads as a number. -/
def luaL_checkinteger (h : Host) (what : String) (v : LuaVal) : Except LuaError Int :=
  match v with
  | .int n => .ok n
  | .str s =>
    match h.str2int s with
    | some n => .ok n
    | none => .error (.bad_argument what)
  | _ => .error (.bad_argument what)

/-- The call `luaL_optint (L, idx, def)`: `luaL_optinteger` cast to `int`. -/
def luaL_optint (h : Host) (what : String) (v : LuaVal) (dflt : Int) : Except LuaError Int :=
  if lua_isnoneornil v then .ok dflt
  else match luaL_checkinteger h what v with
    | .ok n => .ok (to_int32 n)
    | .error e => .error e

/-- The call `luaL_optbool (L, idx, def)`: a boolean argument, else the default. -/
def luaL_optbool (a : LuaArg) (dflt : Bool) : Bool :=
  match a with
  | .val (.bool b) => b
  | _ => dflt

/-! ## The registry of callback references -/

/-- The reference slots of the Lua registry: slot number and stored value. -/
abbrev Registry := List (Nat × LuaVal)

/-- Lookup of a slot. -/
def Registry.slot : Registry → Nat → LuaVal
  | [], _ => .nil
  | (k, v) :: rest, n => if k = n then v else Registry.slot rest n

/-- The call `lua_rawgeti (L, LUA_REGISTRYINDEX, ref)`. -/
def lua_rawgeti (reg : Registry) (ref : Int) : LuaVal :=
  if ref < 0 then .nil else reg.slot ref.toNat

/-- A slot number above every slot in use (and at least 1). -/
def Registry.fresh (reg : Registry) : Nat :=
  (reg.map Prod.fst).foldr max 0 + 1

/-- The call `luaL_ref (L, LUA_REGISTRYINDEX)` on the value on top of the stack. -/
def luaL_ref (reg : Registry) (v : LuaVal) : Int × Registry :=
  if v = .nil then (LUA_REFNIL, reg)
  else ((reg.fresh : Int), (reg.fresh, v) :: reg)

/-- The call `luaL_unref (L, LUA_REGISTRYINDEX, ref)`: a negative reference is ignored. -/
def luaL_unref (reg : Registry) (ref : Int) : Registry :=
  if 0 ≤ ref then reg.filter (fun e => e.1 ≠ ref.toNat) else reg

/-! ## Scan coordinator -/

/-- The mutable cell `scan_cb_ref` together with the registry it points into. -/
structure ScanState where
  scan_cb_ref : Int
  registry : Registry
  deriving DecidableEq, Repr

/-- The driver primitives of the scan path, as functions of their inputs:
the error code of `esp_wifi_scan_start`; the error code and count of
`esp_wifi_scan_get_ap_num`; and, for a buffer of the given capacity, the error
code and the records written by `esp_wifi_scan_get_ap_records` (their number
is the value left in `num_ap`). -/
structure ScanDriver where
  esp_wifi_scan_start : wifi_scan_config_t → Int
  esp_wifi_scan_get_ap_num : Int × Nat
  esp_wifi_scan_get_ap_records : Nat → Int × List wifi_ap_record_t

/-- What a call of `wifi_sta_scan` leaves behind: its result (the number of
return values, or the raised error), the scan state, and the scan requests
that reached the driver. -/
structure ScanOutcome where
  result : Except LuaError Nat
  state : ScanState
  started : List wifi_scan_config_t
  deriving DecidableEq, Repr

/-- The function `wifi_sta_scan` (lines 536-571). -/
def wifi_sta_scan (h : Host) (d : ScanDriver) (st : ScanState) (args : List LuaArg) :
    ScanOutcome :=
  if st.scan_cb_ref ≠ LUA_NOREF then
    ⟨.error .scan_in_progress, st, []⟩
  else
    match luaL_checktable "#1" (lua_arg args 1) with
    | .error e => ⟨.error e, st, []⟩
    | .ok t =>
    match luaL_checkfunction "#2" (lua_arg args 2) with
    | .error e => ⟨.error e, st, []⟩
    | .ok f =>
    let r := luaL_ref st.registry f
    let st1 : ScanState := ⟨r.1, r.2⟩
    match luaL_optstring h "ssid" (lua_getfield t "ssid") with
    | .error e => ⟨.error e, st1, []⟩
    | .ok ssid =>
    match luaL_optstring h "bssid" (lua_getfield t "bssid") with
    | .error e => ⟨.error e, st1, []⟩
    | .ok bssid =>
    match luaL_optint h "channel" (lua_getfield t "channel") 0 with
    | .error e => ⟨.error e, st1, []⟩
    | .ok channel =>
    match luaL_optint h "hidden" (lua_getfield t "hidden") 0 with
    | .error e => ⟨.error e, st1, []⟩
    | .ok hidden =>
    let scan_cfg : wifi_scan_config_t :=
      ⟨ssid, bssid, (channel % 256).toNat, decide (hidden ≠ 0)⟩
    let err := d.esp_wifi_scan_start scan_cfg
    if err ≠ ESP_OK then
      ⟨.error (.scan_start_failed err),
        ⟨LUA_NOREF, luaL_unref st1.registry st1.scan_cb_ref⟩, [scan_cfg]⟩
    else
      ⟨.ok 0, st1, [scan_cfg]⟩

/-- An array-like Lua table of records: index and entry. -/
abbrev LuaArray := List (Nat × LuaTable)

/-- The call `lua_rawseti (L, -2, i)` on an array of records. -/
def lua_rawseti (arr : LuaArray) (i : Nat) (v : LuaTable) : LuaArray :=
  arr.filter (fun e => e.1 ≠ i) ++ [(i, v)]

/-- An argument passed to a Lua callback. -/
inductive CallArg where
  | val (v : LuaVal)
  | table (t : LuaTable)
  | array (items : LuaArray)
  deriving DecidableEq, Repr

/-- One `luaL_pcallx`: the function called and its arguments, in order. -/
structure HostCall where
  f : LuaVal
  args : List CallArg
  deriving DecidableEq, Repr

/-- Lower-case hexadecimal digit of a value below 16. -/
def hexdigit (n : Nat) : Char :=
  if n < 10 then Char.ofNat (48 + n) else Char.ofNat (87 + n)

/-- Two hexadecimal digits of a byte. -/
def hex2 (b : Nat) : List Char :=
  [hexdigit (b / 16 % 16), hexdigit (b % 16)]

/-- Modelled from the spec: `macstr` of `wifi_common.h` is not in the source
tree; it renders a hardware address in "the canonical colon-separated textual
form", taken here as two lower-case hexadecimal digits per byte. -/
def macstr (mac : List Nat) : List Char :=
  List.intercalate [':'] (mac.map hex2)

/-- The pair `strnlen (buf, n)` / `lua_pushlstring (L, buf, len)`: the bytes
of the buffer before its first zero byte, at most `n` of them. -/
def strnlen_string (buf : List Char) (n : Nat) : List Char :=
  cstr (buf.take n)

/-- Body of the loop of `on_scan_done` (lines 496-518): the table built for
one access point.  The number 33 is `sizeof (aps[i].ssid)`. -/
def scan_entry (h : Host) (ap : wifi_ap_record_t) : LuaTable :=
  let t : LuaTable := []
  let t := lua_setfield t "bssid" (.str (macstr ap.bssid))
  let t := lua_setfield t "ssid" (.str (strnlen_string ap.ssid 33))
  let t := lua_setfield t "channel" (.int ap.primary)
  let t := lua_setfield t "rssi" (.int ap.rssi)
  let t := lua_setfield t "auth" (.int ap.authmode)
  lua_setfield t "bandwidth" (.str (h.wifi_second_chan_names ap.second))

/-- The loop of `on_scan_done` (lines 494-521) from index `i` on: `aps` are
the records `aps[i]`, ..., `aps[num_ap - 1]` still to be visited. -/
def scan_fill (h : Host) : List wifi_ap_record_t → Nat → LuaArray → LuaArray
  | [], _, arr => arr
  | ap :: rest, i, arr => scan_fill h rest (i + 1) (lua_rawseti arr (i + 1) (scan_entry h ap))

/-- The text pushed on a failed retrieval. -/
def failure_on_scan_done : List Char := "failure on scan done".toList

/-- What a run of `on_scan_done` leaves behind: the scan state, the callback
invocations made, and whether `luaM_malloc` raised out of the handler. -/
structure DoneOutcome where
  state : ScanState
  calls : List HostCall
  raised : Bool
  deriving DecidableEq, Repr

/-- The function `on_scan_done` (lines 473-528). -/
def on_scan_done (h : Host) (d : ScanDriver) (st : ScanState) : DoneOutcome :=
  let cb := lua_rawgeti st.registry st.scan_cb_ref
  let st1 : ScanState := ⟨LUA_NOREF, luaL_unref st.registry st.scan_cb_ref⟩
  if lua_isnoneornil cb then
    ⟨st1, [], false⟩
  else
    let err := d.esp_wifi_scan_get_ap_num.1
    let num_ap := d.esp_wifi_scan_get_ap_num.2
    match h.luaM_malloc (num_ap * h.sizeof_ap_record) with
    | .raised => ⟨st1, [], true⟩
    | aps =>
      if err = ESP_OK ∧ aps ≠ .null ∧ (d.esp_wifi_scan_get_ap_records num_ap).1 = ESP_OK then
        let recs := (d.esp_wifi_scan_get_ap_records num_ap).2
        ⟨st1, [⟨cb, [.val .nil, .array (scan_fill h recs 0 [])]⟩], false⟩
      else
        ⟨st1, [⟨cb, [.val (.str failure_on_scan_done)]⟩], false⟩


/-! ## The C library pieces used by the marshaller -/

/-- The test `isspace` of the C locale. -/
def isspace (c : Char) : Bool :=
  c = ' ' || c = '\t' || c = '\n' || c = Char.ofNat 11 || c = Char.ofNat 12 || c = '\r'

/-- Value of a hexadecimal digit, if the byte is one. -/
def hexval (c : Char) : Option Nat :=
  if 48 ≤ c.toNat ∧ c.toNat ≤ 57 then some (c.toNat - 48)
  else if 97 ≤ c.toNat ∧ c.toNat ≤ 102 then some (c.toNat - 87)
  else if 65 ≤ c.toNat ∧ c.toNat ≤ 70 then some (c.toNat - 55)
  else none

/-- The longest run of hexadecimal digits at the head of the input (as digit
values) and the input after it. -/
def hex_run : List Char → List Nat × List Char
  | [] => ([], [])
  | c :: rest =>
    match hexval c with
    | some d => (d :: (hex_run rest).1, (hex_run rest).2)
    | none => ([], c :: rest)

/-- Number denoted by a run of hexadecimal digits. -/
def hex_value (ds : List Nat) : Nat :=
  ds.foldl (fun acc d => acc * 16 + d) 0

/-- Outcome of one conversion of `sscanf`. -/
inductive Conv where
  | input_failure
  | matching_failure
  | item (value : Nat) (rest : List Char)
  deriving DecidableEq, Repr

/-- Removes an optional sign; the flag tells whether it was a minus. -/
def scan_sign : List Char → Bool × List Char
  | '-' :: r => (true, r)
  | '+' :: r => (false, r)
  | r => (false, r)

/-- Whether the input starts with `0x` / `0X`. -/
def has_0x : List Char → Bool
  | '0' :: 'x' :: _ => true
  | '0' :: 'X' :: _ => true
  | _ => false

/-- The value `strtoul` gives for a magnitude and a sign in an `unsigned long`
of `bits` bits: the largest value when the magnitude does not fit, else the
magnitude, negated in unsigned arithmetic after a minus sign. -/
def strtoul_value (bits : Nat) (neg : Bool) (magnitude : Nat) : Nat :=
  if magnitude ≥ 2 ^ bits then 2 ^ bits - 1
  else if neg then (2 ^ bits - magnitude) % 2 ^ bits
  else magnitude

/-- The conversion `%hhx` of `sscanf`, without field width: white space is
skipped, then an optionally signed hexadecimal integer with optional `0x` is
consumed, with as many digits as the input has; its `strtoul` value is stored
in an `unsigned char`, so modulo 256.  A `0x` that no digit follows converts
as the `0` before the `x`. -/
def scan_hhx (h : Host) (inp : List Char) : Conv :=
  match inp.dropWhile isspace with
  | [] => .input_failure
  | c :: cs =>
    let signed := scan_sign (c :: cs)
    if has_0x signed.2 then
      let run := hex_run (signed.2.drop 2)
      if run.1 = [] then
        .item 0 (if h.scanf_pushback_x then signed.2.drop 1 else signed.2.drop 2)
      else .item (strtoul_value h.ULONG_BITS signed.1 (hex_value run.1) % 256) run.2
    else
      let run := hex_run signed.2
      if run.1 = [] then .matching_failure
      else .item (strtoul_value h.ULONG_BITS signed.1 (hex_value run.1) % 256) run.2

/-- A directive of a `sscanf` format, for the formats of this file. -/
inductive Directive where
  | hhx
  | white
  | lit (c : Char)
  deriving DecidableEq, Repr

/-- Reads a format text into directives: `%hhx`, white space, or a literal byte. -/
def scanf_format : List Char → List Directive
  | '%' :: 'h' :: 'h' :: 'x' :: rest => .hhx :: scanf_format rest
  | c :: rest => (if isspace c then .white else .lit c) :: scanf_format rest
  | [] => []

/-- Return value `EOF` of `sscanf`. -/
def EOF : Int := -1

/-- Result of a `sscanf` call: the return value, and the values assigned to
the leading output arguments, in order. -/
structure Scanned where
  ret : Int
  vals : List Nat
  deriving DecidableEq, Repr

/-- Return value on an input failure: `EOF` before the first conversion,
else the number of assignments. -/
def input_failure_ret (acc : List Nat) : Int :=
  if acc = [] then EOF else acc.length

/-- Runs the directives over the input; `acc` are the assignments so far. -/
def sscanf_run (h : Host) : List Directive → List Char → List Nat → Scanned
  | [], _, acc => ⟨acc.length, acc⟩
  | .white :: ds, inp, acc => sscanf_run h ds (inp.dropWhile isspace) acc
  | .lit c :: ds, inp, acc =>
    match inp with
    | [] => ⟨input_failure_ret acc, acc⟩
    | c1 :: rest => if c1 = c then sscanf_run h ds rest acc else ⟨acc.length, acc⟩
  | .hhx :: ds, inp, acc =>
    match scan_hhx h inp with
    | .input_failure => ⟨input_failure_ret acc, acc⟩
    | .matching_failure => ⟨acc.length, acc⟩
    | .item v rest => sscanf_run h ds rest (acc ++ [v])

/-- The call `sscanf (str, fmt, ...)` on a C string. -/
def sscanf (h : Host) (str : List Char) (fmt : List Char) : Scanned :=
  sscanf_run h (scanf_format fmt) str []

/-- The call `strncpy (dst, src, n)` into a buffer of at least `n` bytes: the
bytes of the C string `src`, at most `n`, then zero bytes up to `n`; the rest
of the buffer is untouched. -/
def strncpy (dst : List Char) (src : List Char) (n : Nat) : List Char :=
  (cstr src).take n ++ List.replicate (n - ((cstr src).take n).length) (Char.ofNat 0) ++ dst.drop n

/-! ## Configuration marshaller -/

/-- Value of `PMF_VAL_AVAILABLE` (line 46). -/
def PMF_VAL_AVAILABLE : Int := 1

/-- Value of `PMF_VAL_REQUIRED` (line 47). -/
def PMF_VAL_REQUIRED : Int := 2

/-- Enumerator of `wifi_scan_method_t` in `esp_wifi_types.h`. -/
def WIFI_FAST_SCAN : Int := 0

/-- Enumerator of `wifi_scan_method_t` in `esp_wifi_types.h`. -/
def WIFI_ALL_CHANNEL_SCAN : Int := 1

/-- Enumerator of `wifi_sort_method_t` in `esp_wifi_types.h`. -/
def WIFI_CONNECT_AP_BY_SIGNAL : Int := 0

/-- Enumerator of `wifi_sort_method_t` in `esp_wifi_types.h`. -/
def WIFI_CONNECT_AP_BY_SECURITY : Int := 1

/-- Size `sizeof (cfg.sta.ssid)`: the member is `uint8_t ssid[32]`. -/
def SSID_SZ : Nat := 32

/-- Size `sizeof (cfg.sta.password)`: the member is `uint8_t password[64]`. -/
def PASSWORD_SZ : Nat := 64

/-- The station part of `wifi_config_t` (`wifi_sta_config_t` of
`esp_wifi_types.h`), limited to the members this file touches.  Member types:
`ssid` and `password` are byte buffers of 32 and 64 bytes, `bssid` one of 6
bytes; `channel` is `uint8_t`, `listen_interval` is `uint16_t`,
`threshold.rssi` is `int8_t`; `scan_method`, `sort_method`,
`threshold.authmode` and `sae_pwe_h2e` are enumerations of 32 bits without
negative enumerators. -/
structure wifi_sta_config_t where
  ssid : List Char
  password : List Char
  scan_method : Int
  bssid_set : Bool
  bssid : List Nat
  channel : Nat
  listen_interval : Nat
  sort_method : Int
  threshold_rssi : Int
  threshold_authmode : Int
  pmf_required : Bool
  rm_enabled : Bool
  btm_enabled : Bool
  mbo_enabled : Bool
  sae_pwe_h2e : Int
  deriving DecidableEq, Repr

/-- The record after `memset (&cfg, 0, sizeof (cfg))`. -/
def cfg_zero : wifi_sta_config_t where
  ssid := List.replicate SSID_SZ (Char.ofNat 0)
  password := List.replicate PASSWORD_SZ (Char.ofNat 0)
  scan_method := 0
  bssid_set := false
  bssid := List.replicate 6 0
  channel := 0
  listen_interval := 0
  sort_method := 0
  threshold_rssi := 0
  threshold_authmode := 0
  pmf_required := false
  rm_enabled := false
  btm_enabled := false
  mbo_enabled := false
  sae_pwe_h2e := 0

/-- Conversion of an integer to `uint8_t`. -/
def to_uint8 (v : Int) : Nat := (v % 256).toNat

/-- Conversion of an integer to `uint16_t`. -/
def to_uint16 (v : Int) : Nat := (v % 65536).toNat

/-- Conversion of an integer to `int8_t`. -/
def to_int8 (v : Int) : Int := (v + 128) % 256 - 128

/-- The loop of `luaL_checkoption` over the cells `lst[i]`, `lst[i + 1]`, ...:
it stops at a NULL cell, and returns the index of the first cell whose C
string equals the name (`strcmp (lst[i], name) == 0`). -/
def option_walk (name : List Char) : List (Option (List Char)) → Nat → Option Nat
  | [], _ => none
  | none :: _, _ => none
  | some key :: rest, i => if key = name then some i else option_walk name rest (i + 1)

/-- The call `luaL_checkoption (L, idx, NULL, lst)` of the Lua auxiliary
library: the argument must be a string (or a number, converted); its C string
is searched in the cells of `lst` up to the first NULL and the index returned;
an error is raised if it is not found. -/
def luaL_checkoption (h : Host) (what : String) (v : LuaVal)
    (lst : List (Option (List Char))) : Except LuaError Nat :=
  match luaL_checklstring h what v with
  | .error e => .error e
  | .ok name =>
    match option_walk (cstr name) lst 0 with
    | some i => .ok i
    | none => .error (.bad_argument what)

/-- The memory `luaL_checkoption` walks from `keys` of line 316: the array has
the two entries of its initialiser and no closing NULL, so the walk goes on
into the cells behind it. -/
def scan_method_keys (h : Host) : List (Option (List Char)) :=
  [some "fast".toList, some "all".toList] ++ h.scan_keys_behind

/-- The word `vals[i]` of line 317: one of the two entries of the array, or,
for an index past its end, the word behind it. -/
def scan_method_vals (h : Host) (i : Nat) : Int :=
  if i = 0 then WIFI_FAST_SCAN
  else if i = 1 then WIFI_ALL_CHANNEL_SCAN
  else h.scan_vals_behind (i - 2)

/-- The memory `luaL_checkoption` walks from `keys` of line 332, without a
closing NULL as well. -/
def sort_by_keys (h : Host) : List (Option (List Char)) :=
  [some "rssi".toList, some "authmode".toList] ++ h.sort_keys_behind

/-- The word `vals[i]` of line 333. -/
def sort_by_vals (h : Host) (i : Nat) : Int :=
  if i = 0 then WIFI_CONNECT_AP_BY_SIGNAL
  else if i = 1 then WIFI_CONNECT_AP_BY_SECURITY
  else h.sort_vals_behind (i - 2)

/-- Lines 253-259: the field `ssid`. -/
def config_ssid (h : Host) (t : LuaTable) (cfg : wifi_sta_config_t) :
    Except LuaError wifi_sta_config_t :=
  match luaL_checklstring h "ssid" (lua_getfield t "ssid") with
  | .error e => .error e
  | .ok str =>
    let len := if str.length > SSID_SZ then SSID_SZ else str.length
    .ok { cfg with ssid := strncpy cfg.ssid str len }

/-- Lines 261-266: the field `pwd`. -/
def config_pwd (h : Host) (t : LuaTable) (cfg : wifi_sta_config_t) :
    Except LuaError wifi_sta_config_t :=
  match luaL_optlstring h "pwd" (lua_getfield t "pwd") [] with
  | .error e => .error e
  | .ok str =>
    let len := if str.length > PASSWORD_SZ then PASSWORD_SZ else str.length
    .ok { cfg with password := strncpy cfg.password str len }

/-- The array `fmts` of lines 273-279, without its closing NULL. -/
def bssid_fmts : List (List Char) :=
  ["%hhx%hhx%hhx%hhx%hhx%hhx".toList,
   "%hhx:%hhx:%hhx:%hhx:%hhx:%hhx".toList,
   "%hhx-%hhx-%hhx-%hhx-%hhx-%hhx".toList,
   "%hhx %hhx %hhx %hhx %hhx %hhx".toList]

/-- Effect of one `sscanf` of line 282 on the six bytes of `cfg.sta.bssid`:
the assigned values overwrite the leading bytes. -/
def bssid_store (bytes : List Nat) (r : Scanned) : List Nat :=
  r.vals ++ bytes.drop r.vals.length

/-- The loop of lines 280-289 over the remaining formats: the bytes of
`cfg.sta.bssid` and the flag `cfg.sta.bssid_set` it leaves. -/
def bssid_loop (h : Host) (bssid : List Char) : List (List Char) → List Nat → List Nat × Bool
  | [], bytes => (bytes, false)
  | fmt :: rest, bytes =>
    if (sscanf h bssid fmt).ret = 6 then (bssid_store bytes (sscanf h bssid fmt), true)
    else bssid_loop h bssid rest (bssid_store bytes (sscanf h bssid fmt))

/-- Lines 268-293: the field `bssid`. -/
def config_bssid (h : Host) (t : LuaTable) (cfg : wifi_sta_config_t) :
    Except LuaError wifi_sta_config_t :=
  let cfg := { cfg with bssid_set := false }
  if lua_isnoneornil (lua_getfield t "bssid") then .ok cfg
  else
    match luaL_checklstring h "bssid" (lua_getfield t "bssid") with
    | .error e => .error e
    | .ok str =>
      let r := bssid_loop h (cstr str) bssid_fmts cfg.bssid
      if r.2 then .ok { cfg with bssid := r.1, bssid_set := true }
      else .error (.invalid_bssid (cstr str))

/-- Lines 295-303: the field `pmf`. -/
def config_pmf (h : Host) (t : LuaTable) (cfg : wifi_sta_config_t) :
    Except LuaError wifi_sta_config_t :=
  if lua_isnoneornil (lua_getfield t "pmf") then .ok { cfg with pmf_required := false }
  else
    match luaL_checkinteger h "pmf" (lua_getfield t "pmf") with
    | .error e => .error e
    | .ok pmf_mode =>
      .ok { cfg with pmf_required := decide (to_int32 pmf_mode = PMF_VAL_REQUIRED) }

/-- Lines 305-308: the field `channel`. -/
def config_channel (h : Host) (t : LuaTable) (cfg : wifi_sta_config_t) :
    Except LuaError wifi_sta_config_t :=
  if lua_isnoneornil (lua_getfield t "channel") then .ok cfg
  else
    match luaL_checkinteger h "channel" (lua_getfield t "channel") with
    | .error e => .error e
    | .ok v => .ok { cfg with channel := to_uint8 v }

/-- Lines 310-319: the field `scan_method`. -/
def config_scan_method (h : Host) (t : LuaTable) (cfg : wifi_sta_config_t) :
    Except LuaError wifi_sta_config_t :=
  if lua_isnoneornil (lua_getfield t "scan_method") then .ok cfg
  else
    match luaL_checkoption h "scan_method" (lua_getfield t "scan_method")
        (scan_method_keys h) with
    | .error e => .error e
    | .ok i => .ok { cfg with scan_method := scan_method_vals h i }

/-- Lines 321-324: the field `listen_interval`. -/
def config_listen_interval (h : Host) (t : LuaTable) (cfg : wifi_sta_config_t) :
    Except LuaError wifi_sta_config_t :=
  if lua_isnoneornil (lua_getfield t "listen_interval") then .ok cfg
  else
    match luaL_checkinteger h "listen_interval" (lua_getfield t "listen_interval") with
    | .error e => .error e
    | .ok v => .ok { cfg with listen_interval := to_uint16 v }

/-- Lines 326-335: the field `sort_by`. -/
def config_sort_by (h : Host) (t : LuaTable) (cfg : wifi_sta_config_t) :
    Except LuaError wifi_sta_config_t :=
  if lua_isnoneornil (lua_getfield t "sort_by") then .ok cfg
  else
    match luaL_checkoption h "sort_by" (lua_getfield t "sort_by")
        (sort_by_keys h) with
    | .error e => .error e
    | .ok i => .ok { cfg with sort_method := sort_by_vals h i }

/-- Lines 337-340: the field `threshold_rssi`. -/
def config_threshold_rssi (h : Host) (t : LuaTable) (cfg : wifi_sta_config_t) :
    Except LuaError wifi_sta_config_t :=
  if lua_isnoneornil (lua_getfield t "threshold_rssi") then .ok cfg
  else
    match luaL_checkinteger h "threshold_rssi" (lua_getfield t "threshold_rssi") with
    | .error e => .error e
    | .ok v => .ok { cfg with threshold_rssi := to_int8 v }

/-- Lines 342-345: the field `threshold_authmode`. -/
def config_threshold_authmode (h : Host) (t : LuaTable) (cfg : wifi_sta_config_t) :
    Except LuaError wifi_sta_config_t :=
  if lua_isnoneornil (lua_getfield t "threshold_authmode") then .ok cfg
  else
    match luaL_checkinteger h "threshold_authmode" (lua_getfield t "threshold_authmode") with
    | .error e => .error e
    | .ok v => .ok { cfg with threshold_authmode := to_uint32 v }

/-- Lines 347-357: the toggles `rm`, `btm` and `mbo`. -/
def config_toggles (h : Host) (t : LuaTable) (cfg : wifi_sta_config_t) :
    Except LuaError wifi_sta_config_t :=
  .ok { cfg with
    rm_enabled := h.luaL_totoggle (lua_getfield t "rm")
    btm_enabled := h.luaL_totoggle (lua_getfield t "btm")
    mbo_enabled := h.luaL_totoggle (lua_getfield t "mbo") }

/-- Lines 359-362: the field `sae_pwe`. -/
def config_sae_pwe (h : Host) (t : LuaTable) (cfg : wifi_sta_config_t) :
    Except LuaError wifi_sta_config_t :=
  if lua_isnoneornil (lua_getfield t "sae_pwe") then .ok cfg
  else
    match luaL_checkinteger h "sae_pwe" (lua_getfield t "sae_pwe") with
    | .error e => .error e
    | .ok v => .ok { cfg with sae_pwe_h2e := to_uint32 v }

/-- Lines 250-362 of `wifi_sta_config`: the record `cfg` built from the table,
field after field in source order, or the first error raised. -/
def wifi_sta_config_record (h : Host) (t : LuaTable) : Except LuaError wifi_sta_config_t :=
  config_ssid h t cfg_zero >>= config_pwd h t >>= config_bssid h t >>= config_pmf h t >>=
  config_channel h t >>= config_scan_method h t >>= config_listen_interval h t >>=
  config_sort_by h t >>= config_threshold_rssi h t >>= config_threshold_authmode h t >>=
  config_toggles h t >>= config_sae_pwe h t

/-- The driver primitives of the configuration path: the error codes of
`esp_wifi_set_storage` (argument: flash rather than RAM) and of
`esp_wifi_set_config`, and the error code and record of `esp_wifi_get_config`. -/
structure ConfigDriver where
  esp_wifi_set_storage : Bool → Int
  esp_wifi_set_config : wifi_sta_config_t → Int
  esp_wifi_get_config : Int × wifi_sta_config_t

/-- A call that reached the driver from `wifi_sta_config`. -/
inductive DriverCall where
  | set_storage (flash : Bool)
  | set_config (cfg : wifi_sta_config_t)
  deriving DecidableEq, Repr

/-- What a call of `wifi_sta_config` leaves behind: its result and the driver
calls made, in order. -/
structure ConfigOutcome where
  result : Except LuaError Nat
  calls : List DriverCall
  deriving DecidableEq, Repr

/-- The function `wifi_sta_config` (lines 244-370).  `SET_SAVE_MODE (save)` of
`wifi_common.h` selects the storage through `esp_wifi_set_storage` and raises
when that fails. -/
def wifi_sta_config (h : Host) (d : ConfigDriver) (args : List LuaArg) : ConfigOutcome :=
  match luaL_checktable "#1" (lua_arg args 1) with
  | .error e => ⟨.error e, []⟩
  | .ok t =>
    let save := luaL_optbool (lua_arg args 2) h.DEFAULT_SAVE
    match wifi_sta_config_record h t with
    | .error e => ⟨.error e, []⟩
    | .ok cfg =>
      if d.esp_wifi_set_storage save ≠ ESP_OK then
        ⟨.error (.storage_failed (d.esp_wifi_set_storage save)), [.set_storage save]⟩
      else if d.esp_wifi_set_config cfg ≠ ESP_OK then
        ⟨.error (.set_config_failed (d.esp_wifi_set_config cfg)),
          [.set_storage save, .set_config cfg]⟩
      else
        ⟨.ok 0, [.set_storage save, .set_config cfg]⟩

/-- The text for a scan method code (lines 417-422); `none` is the NULL of the
default case. -/
def scan_method_name (code : Int) : Option (List Char) :=
  if code = WIFI_FAST_SCAN then some "fast".toList
  else if code = WIFI_ALL_CHANNEL_SCAN then some "all".toList
  else none

/-- The text for a sort method code (lines 435-440). -/
def sort_method_name (code : Int) : Option (List Char) :=
  if code = WIFI_CONNECT_AP_BY_SIGNAL then some "rssi".toList
  else if code = WIFI_CONNECT_AP_BY_SECURITY then some "authmode".toList
  else none

/-- Lines 395-463 of `wifi_sta_getconfig`: the table built from a record. -/
def getconfig_table (cfg : wifi_sta_config_t) : LuaTable :=
  let t : LuaTable := []
  let t := lua_setfield t "ssid" (.str (strnlen_string cfg.ssid SSID_SZ))
  let t := lua_setfield t "pwd" (.str (strnlen_string cfg.password PASSWORD_SZ))
  let t := if cfg.bssid_set then lua_setfield t "bssid" (.str (macstr cfg.bssid)) else t
  let t := lua_setfield t "pmf"
    (.int (if cfg.pmf_required then PMF_VAL_REQUIRED else PMF_VAL_AVAILABLE))
  let t := match scan_method_name cfg.scan_method with
    | some tmp => lua_setfield t "scan_method" (.str tmp)
    | none => t
  let t := lua_setfield t "channel" (.int cfg.channel)
  let t := lua_setfield t "listen_interval" (.int cfg.listen_interval)
  let t := match sort_method_name cfg.sort_method with
    | some tmp => lua_setfield t "sort_by" (.str tmp)
    | none => t
  let t := lua_setfield t "threshold_rssi" (.int cfg.threshold_rssi)
  let t := lua_setfield t "threshold_authmode" (.int cfg.threshold_authmode)
  let t := lua_setfield t "rm" (.bool cfg.rm_enabled)
  let t := lua_setfield t "btm" (.bool cfg.btm_enabled)
  let t := lua_setfield t "mbo" (.bool cfg.mbo_enabled)
  lua_setfield t "sae_pwe" (.int cfg.sae_pwe_h2e)

/-- The function `wifi_sta_getconfig` (lines 387-466): the table returned, or
the error raised when the driver does not deliver its record. -/
def wifi_sta_getconfig (d : ConfigDriver) : Except LuaError LuaTable :=
  if d.esp_wifi_get_config.1 ≠ ESP_OK then
    .error (.get_config_failed d.esp_wifi_get_config.1)
  else
    .ok (getconfig_table d.esp_wifi_get_config.2)

/-- The record built from `ssid = "x"` with the scan method code 1. -/
def sample_method_cfg : wifi_sta_config_t :=
  { cfg_zero with
    ssid := 'x' :: List.replicate 31 (Char.ofNat 0)
    scan_method := 1 }

/-- The record built from `ssid = "x"`, `scan_method = "all"` and
`sort_by = "authmode"`. -/
def sample_enum_cfg : wifi_sta_config_t :=
  { cfg_zero with
    ssid := 'x' :: List.replicate 31 (Char.ofNat 0)
    scan_method := 1
    sort_method := 1 }

/-- Whether a byte is a hexadecimal digit. -/
def is_hex_digit (c : Char) : Bool := (hexval c).isSome

/-- One textual form of an address in the words of the specification: six
octets of two hexadecimal digits each, with no separator (`none`) or with the
given separator between octets. -/
def spec_bssid_form (sep : Option Char) (s : List Char) : Bool :=
  match sep with
  | none => decide (s.length = 12) && s.all is_hex_digit
  | some c => decide (s.length = 17) &&
      s.enum.all (fun e => if e.1 % 3 = 2 then decide (e.2 = c) else is_hex_digit e.2)

/-- The four accepted grammars of the specification: no separator, or the
separators colon, dash and space. -/
def spec_bssid_grammar (s : List Char) : Bool :=
  spec_bssid_form none s || spec_bssid_form (some ':') s ||
  spec_bssid_form (some '-') s || spec_bssid_form (some ' ') s

/-- The table `ssid = "x"`, `bssid = b` for closed evaluations. -/
def sample_bssid_table (b : String) : LuaTable :=
  [("ssid", .str "x".toList), ("bssid", .str b.toList)]

/-- The record built from `ssid = "x"` and a BSSID read as the given bytes. -/
def sample_bssid_cfg (bytes : List Nat) : wifi_sta_config_t :=
  { cfg_zero with
    ssid := 'x' :: List.replicate 31 (Char.ofNat 0)
    bssid := bytes
    bssid_set := true }

/-- A configuration driver that accepts everything and holds the given record. -/
def sample_config_driver (stored : wifi_sta_config_t) : ConfigDriver where
  esp_wifi_set_storage := fun _ => ESP_OK
  esp_wifi_set_config := fun _ => ESP_OK
  esp_wifi_get_config := (ESP_OK, stored)

/-! ## Event registry and dispatcher -/

/-- The event sources the module knows (`esp_event_base_t` values); `other`
stands for any further event base. -/
inductive esp_event_base_t where
  | WIFI_EVENT
  | IP_EVENT
  | other (n : Nat)
  deriving DecidableEq, Repr

/-- Enumerator of `wifi_event_t` in `esp_wifi_types.h`. -/
def WIFI_EVENT_STA_START : Int := 2

/-- Enumerator of `wifi_event_t` in `esp_wifi_types.h`. -/
def WIFI_EVENT_STA_STOP : Int := 3

/-- Enumerator of `wifi_event_t` in `esp_wifi_types.h`. -/
def WIFI_EVENT_STA_CONNECTED : Int := 4

/-- Enumerator of `wifi_event_t` in `esp_wifi_types.h`. -/
def WIFI_EVENT_STA_DISCONNECTED : Int := 5

/-- Enumerator of `wifi_event_t` in `esp_wifi_types.h`. -/
def WIFI_EVENT_STA_AUTHMODE_CHANGE : Int := 6

/-- Enumerator of `ip_event_t` in `esp_netif_types.h`. -/
def IP_EVENT_STA_GOT_IP : Int := 0

/-- Payload of the connected event, limited to the members `sta_conn` reads. -/
structure wifi_event_sta_connected_t where
  ssid : List Char
  ssid_len : Nat
  bssid : List Nat
  channel : Nat
  authmode : Int
  deriving DecidableEq, Repr

/-- Payload of the disconnected event, limited to the members `sta_disconn` reads. -/
structure wifi_event_sta_disconnected_t where
  ssid : List Char
  ssid_len : Nat
  bssid : List Nat
  reason : Nat
  deriving DecidableEq, Repr

/-- Payload of the auth-mode change event. -/
structure wifi_event_sta_authmode_change_t where
  old_mode : Int
  new_mode : Int
  deriving DecidableEq, Repr

/-- The member `ip_info` of the payload of the got-IP event: three 32-bit
addresses in network byte order. -/
structure esp_netif_ip_info_t where
  ip : Nat
  netmask : Nat
  gw : Nat
  deriving DecidableEq, Repr

/-- The raw payload `const void *data` of an event, given by what each cast
of the extractors reads from it. -/
structure EventData where
  connected : wifi_event_sta_connected_t
  disconnected : wifi_event_sta_disconnected_t
  authmode_change : wifi_event_sta_authmode_change_t
  got_ip : esp_netif_ip_info_t
  deriving DecidableEq, Repr

/-- Modelled from the spec: `ip4str_esp` of `ip_fmt.h` is not in the source
tree; an address is "rendered from a 32-bit network-order integer into the
shortest valid dotted-quad text".  On the little-endian target the first octet
is the low byte of the integer. -/
def ip4str_esp (addr : Nat) : List Char :=
  Nat.toDigits 10 (addr % 256) ++ ['.'] ++ Nat.toDigits 10 (addr / 256 % 256) ++ ['.'] ++
  Nat.toDigits 10 (addr / 65536 % 256) ++ ['.'] ++ Nat.toDigits 10 (addr / 16777216 % 256)

/-- The extractor `empty_arg` (line 58). -/
def empty_arg (t : LuaTable) (_data : EventData) : LuaTable := t

/-- The extractor `sta_conn` (lines 73-90). -/
def sta_conn (t : LuaTable) (data : EventData) : LuaTable :=
  let connected := data.connected
  let t := lua_setfield t "ssid" (.str (connected.ssid.take connected.ssid_len))
  let t := lua_setfield t "bssid" (.str (macstr connected.bssid))
  let t := lua_setfield t "channel" (.int connected.channel)
  lua_setfield t "auth" (.int connected.authmode)

/-- The extractor `sta_disconn` (lines 92-106). -/
def sta_disconn (t : LuaTable) (data : EventData) : LuaTable :=
  let disconnected := data.disconnected
  let t := lua_setfield t "ssid" (.str (disconnected.ssid.take disconnected.ssid_len))
  let t := lua_setfield t "bssid" (.str (macstr disconnected.bssid))
  lua_setfield t "reason" (.int disconnected.reason)

/-- The extractor `sta_authmode` (lines 108-116). -/
def sta_authmode (t : LuaTable) (data : EventData) : LuaTable :=
  let auth_change := data.authmode_change
  let t := lua_setfield t "old_mode" (.int auth_change.old_mode)
  lua_setfield t "new_mode" (.int auth_change.new_mode)

/-- The extractor `sta_got_ip` (lines 118-136). -/
def sta_got_ip (t : LuaTable) (data : EventData) : LuaTable :=
  let ip_info := data.got_ip
  let t := lua_setfield t "ip" (.str (ip4str_esp ip_info.ip))
  let t := lua_setfield t "netmask" (.str (ip4str_esp ip_info.netmask))
  lua_setfield t "gw" (.str (ip4str_esp ip_info.gw))

/-- An entry of the table `events` (`event_desc_t`): symbolic name, event
source, event id, and the extractor filling the callback argument. -/
structure event_desc_t where
  name : List Char
  event_base : esp_event_base_t
  event_id : Int
  fill_cb_arg : LuaTable → EventData → LuaTable

/-- The table `events` (lines 60-68). -/
def events : List event_desc_t :=
  [⟨"start".toList, .WIFI_EVENT, WIFI_EVENT_STA_START, empty_arg⟩,
   ⟨"stop".toList, .WIFI_EVENT, WIFI_EVENT_STA_STOP, empty_arg⟩,
   ⟨"connected".toList, .WIFI_EVENT, WIFI_EVENT_STA_CONNECTED, sta_conn⟩,
   ⟨"disconnected".toList, .WIFI_EVENT, WIFI_EVENT_STA_DISCONNECTED, sta_disconn⟩,
   ⟨"authmode_changed".toList, .WIFI_EVENT, WIFI_EVENT_STA_AUTHMODE_CHANGE, sta_authmode⟩,
   ⟨"got_ip".toList, .IP_EVENT, IP_EVENT_STA_GOT_IP, sta_got_ip⟩]

/-- Search of a descriptor table from index `i` on. -/
def event_idx_from (base : esp_event_base_t) (id : Int) : List event_desc_t → Int → Int
  | [], _ => -1
  | desc :: rest, i =>
    if desc.event_base = base ∧ desc.event_id = id then i
    else event_idx_from base id rest (i + 1)

/-- Modelled from the spec: `wifi_event_idx_by_id` of `wifi_common.c` is not
in the source tree; it "looks up the (source, id) pair" in the table and tells
apart a match from "no match".  It is taken as the index of the first
descriptor with that source and id, and -1 when there is none. -/
def wifi_event_idx_by_id (table : List event_desc_t) (base : esp_event_base_t) (id : Int) :
    Int :=
  event_idx_from base id table 0

/-- The callback slots `event_cb` (line 71), one per descriptor, together with
the registry they point into. -/
structure EventState where
  event_cb : List Int
  registry : Registry
  deriving DecidableEq, Repr

/-- The slot `event_cb[idx]`. -/
def EventState.slot (st : EventState) (idx : Int) : Int :=
  st.event_cb.getD idx.toNat LUA_NOREF

/-- What a run of `on_event` leaves behind: the slots and registry, the
callback invocations made, and the error raised, if any. -/
structure EventOutcome where
  state : EventState
  calls : List HostCall
  raised : Option LuaError
  deriving DecidableEq, Repr

/-- The function `on_event` (lines 138-150). -/
def on_event (st : EventState) (base : esp_event_base_t) (id : Int) (data : EventData) :
    EventOutcome :=
  let idx := wifi_event_idx_by_id events base id
  if idx < 0 ∨ st.slot idx = LUA_NOREF then
    ⟨st, [], none⟩
  else
    match events.get? idx.toNat with
    | none => ⟨st, [], none⟩
    | some desc =>
      let cb := lua_rawgeti st.registry (st.slot idx)
      let arg := desc.fill_cb_arg [] data
      ⟨st, [⟨cb, [.val (.str desc.name), .table arg]⟩], none⟩

/-- The state after `wifi_sta_init` (lines 164-165): every slot unset. -/
def wifi_sta_init_state (registry : Registry) : EventState :=
  ⟨List.replicate 6 LUA_NOREF, registry⟩

/-- A payload for closed evaluations. -/
def sample_event_data : EventData where
  connected := ⟨"home".toList ++ List.replicate 28 (Char.ofNat 0), 4, [0, 17, 34, 51, 68, 85], 6, 3⟩
  disconnected := ⟨"home".toList ++ List.replicate 28 (Char.ofNat 0), 4, [0, 17, 34, 51, 68, 85], 8⟩
  authmode_change := ⟨3, 4⟩
  got_ip := ⟨16885952, 16777215, 16885952⟩

/-! ## Sample collaborators for closed evaluations -/

/-- A host runtime with decimal number texts and the allocator of the Lua
core: a request of zero bytes yields NULL, any other request a block.  Its
memory has the arrays of `sort_by` directly behind those of `scan_method`, and
a NULL word behind the keys of `sort_by`. -/
def sample_host : Host where
  int2str := fun v => (toString v).toList
  str2int := fun s => (String.mk s).toInt?
  luaL_totoggle := fun v => decide (v = .bool true)
  DEFAULT_SAVE := false
  luaM_malloc := fun n => if n = 0 then .null else .block
  sizeof_ap_record := 80
  wifi_second_chan_names := fun n =>
    if n = 0 then "HT20".toList else if n = 1 then "HT40_ABOVE".toList else "HT40_BELOW".toList
  ULONG_BITS := 32
  scanf_pushback_x := true
  scan_keys_behind := [some "rssi".toList, some "authmode".toList, none]
  scan_vals_behind := fun k =>
    if k = 0 then WIFI_CONNECT_AP_BY_SIGNAL
    else if k = 1 then WIFI_CONNECT_AP_BY_SECURITY
    else 0
  sort_keys_behind := [none]
  sort_vals_behind := fun _ => 0

/-- A driver that accepts every scan request and finds the given records. -/
def sample_driver (recs : List wifi_ap_record_t) : ScanDriver where
  esp_wifi_scan_start := fun _ => ESP_OK
  esp_wifi_scan_get_ap_num := (ESP_OK, recs.length)
  esp_wifi_scan_get_ap_records := fun n => (ESP_OK, recs.take n)

/-- A driver that rejects every scan request with the given code. -/
def rejecting_driver (code : Int) : ScanDriver where
  esp_wifi_scan_start := fun _ => code
  esp_wifi_scan_get_ap_num := (ESP_OK, 0)
  esp_wifi_scan_get_ap_records := fun _ => (ESP_OK, [])

/-- Two access points for closed evaluations. -/
def sample_aps : List wifi_ap_record_t :=
  [⟨[0, 17, 34, 51, 68, 85], "home".toList, 6, 0, -40, 3⟩,
   ⟨[170, 187, 204, 221, 238, 255], "cafe".toList, 11, 1, -71, 0⟩]


/-! ## Lemmas: tables and the steps of the marshaller -/

/-- Reading the key just set gives the value set. -/
theorem getfield_setfield_same (t : LuaTable) (k : String) (v : LuaVal) :
    lua_getfield (lua_setfield t k v) k = v := by
  unfold lua_setfield
  induction t with
  | nil => simp [lua_getfield]
  | cons e rest ih =>
    obtain ⟨k1, v1⟩ := e
    rw [List.filter_cons]
    split
    · rename_i hp
      have hk : k1 ≠ k := by simpa using hp
      simp only [List.cons_append, lua_getfield, hk, if_false]
      exact ih
    · exact ih

/-- Setting a key does not change what another key reads. -/
theorem getfield_setfield_other (t : LuaTable) (k k2 : String) (v : LuaVal) (hne : k ≠ k2) :
    lua_getfield (lua_setfield t k v) k2 = lua_getfield t k2 := by
  unfold lua_setfield
  induction t with
  | nil => simp [lua_getfield, hne]
  | cons e rest ih =>
    obtain ⟨k1, v1⟩ := e
    rw [List.filter_cons]
    split
    · simp only [List.cons_append, lua_getfield]
      split
      · rfl
      · exact ih
    · rename_i hp
      have hk : k1 = k := by simpa using hp
      have hk2 : k1 ≠ k2 := by rw [hk]; exact hne
      simp only [lua_getfield, hk2, if_false]
      exact ih

/-- A bind in `Except` succeeds exactly when both parts do. -/
theorem bind_ok {ε α β : Type} (x : Except ε α) (f : α → Except ε β) (b : β) :
    (x >>= f) = .ok b ↔ ∃ a, x = .ok a ∧ f a = .ok b := by
  cases x with
  | error e => simp [bind, Except.bind]
  | ok a => simp [bind, Except.bind]

/-- A bind in `Except` fails when the first part fails, or the second does. -/
theorem bind_error {ε α β : Type} (x : Except ε α) (f : α → Except ε β) (e : ε) :
    (x >>= f) = .error e ↔ x = .error e ∨ ∃ a, x = .ok a ∧ f a = .error e := by
  cases x with
  | error e1 => simp [bind, Except.bind]
  | ok a => simp [bind, Except.bind]

/-- The test `lua_isnoneornil` holds of nil only. -/
theorem isnoneornil_iff (v : LuaVal) : lua_isnoneornil v = true ↔ v = .nil := by
  cases v <;> simp [lua_isnoneornil]

/-- The only error of `luaL_checklstring` is the argument error. -/
theorem luaL_checklstring_error {h : Host} {what : String} {v : LuaVal} {e : LuaError}
    (herr : luaL_checklstring h what v = .error e) : e = .bad_argument what := by
  unfold luaL_checklstring at herr
  split at herr <;> simp_all

/-- The only error of `luaL_checkinteger` is the argument error. -/
theorem luaL_checkinteger_error {h : Host} {what : String} {v : LuaVal} {e : LuaError}
    (herr : luaL_checkinteger h what v = .error e) : e = .bad_argument what := by
  unfold luaL_checkinteger at herr
  split at herr
  · simp at herr
  · split at herr <;> simp_all
  · simp_all

/-- The only error of `luaL_checkoption` is the argument error. -/
theorem luaL_checkoption_error {h : Host} {what : String} {v : LuaVal}
    {keys : List (Option (List Char))} {e : LuaError}
    (herr : luaL_checkoption h what v keys = .error e) : e = .bad_argument what := by
  unfold luaL_checkoption at herr
  split at herr
  · rename_i e1 h1
    have := luaL_checklstring_error h1
    simp_all
  · split at herr <;> simp_all

/-- Step `ssid`: what success means. -/
theorem config_ssid_ok {h : Host} {t : LuaTable} {c c2 : wifi_sta_config_t}
    (hok : config_ssid h t c = .ok c2) :
    ∃ str, luaL_checklstring h "ssid" (lua_getfield t "ssid") = .ok str ∧
      c2 = { c with ssid := strncpy c.ssid str (if str.length > SSID_SZ then SSID_SZ else str.length) } := by
  unfold config_ssid at hok
  split at hok
  · simp at hok
  · rename_i str hstr
    exact ⟨str, hstr, by simpa using hok.symm⟩

/-- Step `pwd`: what success means. -/
theorem config_pwd_ok {h : Host} {t : LuaTable} {c c2 : wifi_sta_config_t}
    (hok : config_pwd h t c = .ok c2) :
    ∃ str, luaL_optlstring h "pwd" (lua_getfield t "pwd") [] = .ok str ∧
      c2 = { c with
        password := strncpy c.password str
          (if str.length > PASSWORD_SZ then PASSWORD_SZ else str.length) } := by
  unfold config_pwd at hok
  split at hok
  · simp at hok
  · rename_i str hstr
    exact ⟨str, hstr, by simpa using hok.symm⟩

/-- Step `bssid`: what success means. -/
theorem config_bssid_ok {h : Host} {t : LuaTable} {c c2 : wifi_sta_config_t}
    (hok : config_bssid h t c = .ok c2) :
    (lua_getfield t "bssid" = .nil ∧ c2 = { c with bssid_set := false }) ∨
    ∃ str, luaL_checklstring h "bssid" (lua_getfield t "bssid") = .ok str ∧
      (bssid_loop h (cstr str) bssid_fmts c.bssid).2 = true ∧
      c2 = { c with bssid := (bssid_loop h (cstr str) bssid_fmts c.bssid).1, bssid_set := true } := by
  unfold config_bssid at hok
  simp only [] at hok
  split at hok
  · rename_i hnil
    left
    exact ⟨(isnoneornil_iff _).mp hnil, by simpa using hok.symm⟩
  · split at hok
    · simp at hok
    · rename_i str hstr
      split at hok
      · rename_i hset
        right
        exact ⟨str, hstr, hset, by simpa using hok.symm⟩
      · simp at hok

/-- Step `pmf`: success changes only `pmf_required`. -/
theorem config_pmf_ok {h : Host} {t : LuaTable} {c c2 : wifi_sta_config_t}
    (hok : config_pmf h t c = .ok c2) : ∃ b, c2 = { c with pmf_required := b } := by
  unfold config_pmf at hok
  split at hok
  · exact ⟨false, by simpa using hok.symm⟩
  · split at hok
    · simp at hok
    · rename_i v _
      exact ⟨decide (to_int32 v = PMF_VAL_REQUIRED), by simpa using hok.symm⟩

/-- Step `channel`: what success means. -/
theorem config_channel_ok {h : Host} {t : LuaTable} {c c2 : wifi_sta_config_t}
    (hok : config_channel h t c = .ok c2) :
    (lua_getfield t "channel" = .nil ∧ c2 = c) ∨
    ∃ v, luaL_checkinteger h "channel" (lua_getfield t "channel") = .ok v ∧
      c2 = { c with channel := to_uint8 v } := by
  unfold config_channel at hok
  split at hok
  · rename_i hnil
    exact .inl ⟨(isnoneornil_iff _).mp hnil, by simpa using hok.symm⟩
  · split at hok
    · simp at hok
    · rename_i v hv
      exact .inr ⟨v, hv, by simpa using hok.symm⟩

/-- Step `scan_method`: what success means. -/
theorem config_scan_method_ok {h : Host} {t : LuaTable} {c c2 : wifi_sta_config_t}
    (hok : config_scan_method h t c = .ok c2) :
    (lua_getfield t "scan_method" = .nil ∧ c2 = c) ∨
    ∃ i, luaL_checkoption h "scan_method" (lua_getfield t "scan_method")
        (scan_method_keys h) = .ok i ∧
      c2 = { c with scan_method := scan_method_vals h i } := by
  unfold config_scan_method at hok
  split at hok
  · rename_i hnil
    exact .inl ⟨(isnoneornil_iff _).mp hnil, by simpa using hok.symm⟩
  · split at hok
    · simp at hok
    · rename_i v hv
      exact .inr ⟨v, hv, by simpa using hok.symm⟩

/-- Step `listen_interval`: what success means. -/
theorem config_listen_interval_ok {h : Host} {t : LuaTable} {c c2 : wifi_sta_config_t}
    (hok : config_listen_interval h t c = .ok c2) :
    (lua_getfield t "listen_interval" = .nil ∧ c2 = c) ∨
    ∃ v, luaL_checkinteger h "listen_interval" (lua_getfield t "listen_interval") = .ok v ∧
      c2 = { c with listen_interval := to_uint16 v } := by
  unfold config_listen_interval at hok
  split at hok
  · rename_i hnil
    exact .inl ⟨(isnoneornil_iff _).mp hnil, by simpa using hok.symm⟩
  · split at hok
    · simp at hok
    · rename_i v hv
      exact .inr ⟨v, hv, by simpa using hok.symm⟩

/-- Step `sort_by`: what success means. -/
theorem config_sort_by_ok {h : Host} {t : LuaTable} {c c2 : wifi_sta_config_t}
    (hok : config_sort_by h t c = .ok c2) :
    (lua_getfield t "sort_by" = .nil ∧ c2 = c) ∨
    ∃ i, luaL_checkoption h "sort_by" (lua_getfield t "sort_by")
        (sort_by_keys h) = .ok i ∧
      c2 = { c with sort_method := sort_by_vals h i } := by
  unfold config_sort_by at hok
  split at hok
  · rename_i hnil
    exact .inl ⟨(isnoneornil_iff _).mp hnil, by simpa using hok.symm⟩
  · split at hok
    · simp at hok
    · rename_i v hv
      exact .inr ⟨v, hv, by simpa using hok.symm⟩

/-- Step `threshold_rssi`: what success means. -/
theorem config_threshold_rssi_ok {h : Host} {t : LuaTable} {c c2 : wifi_sta_config_t}
    (hok : config_threshold_rssi h t c = .ok c2) :
    (lua_getfield t "threshold_rssi" = .nil ∧ c2 = c) ∨
    ∃ v, luaL_checkinteger h "threshold_rssi" (lua_getfield t "threshold_rssi") = .ok v ∧
      c2 = { c with threshold_rssi := to_int8 v } := by
  unfold config_threshold_rssi at hok
  split at hok
  · rename_i hnil
    exact .inl ⟨(isnoneornil_iff _).mp hnil, by simpa using hok.symm⟩
  · split at hok
    · simp at hok
    · rename_i v hv
      exact .inr ⟨v, hv, by simpa using hok.symm⟩

/-- Step `threshold_authmode`: what success means. -/
theorem config_threshold_authmode_ok {h : Host} {t : LuaTable} {c c2 : wifi_sta_config_t}
    (hok : config_threshold_authmode h t c = .ok c2) :
    (lua_getfield t "threshold_authmode" = .nil ∧ c2 = c) ∨
    ∃ v, luaL_checkinteger h "threshold_authmode" (lua_getfield t "threshold_authmode") = .ok v ∧
      c2 = { c with threshold_authmode := to_uint32 v } := by
  unfold config_threshold_authmode at hok
  split at hok
  · rename_i hnil
    exact .inl ⟨(isnoneornil_iff _).mp hnil, by simpa using hok.symm⟩
  · split at hok
    · simp at hok
    · rename_i v hv
      exact .inr ⟨v, hv, by simpa using hok.symm⟩

/-- Step of the toggles: success changes only the three toggle members. -/
theorem config_toggles_ok {h : Host} {t : LuaTable} {c c2 : wifi_sta_config_t}
    (hok : config_toggles h t c = .ok c2) :
    ∃ b1 b2 b3, c2 = { c with rm_enabled := b1, btm_enabled := b2, mbo_enabled := b3 } := by
  unfold config_toggles at hok
  exact ⟨_, _, _, by simpa using hok.symm⟩

/-- Step `sae_pwe`: what success means. -/
theorem config_sae_pwe_ok {h : Host} {t : LuaTable} {c c2 : wifi_sta_config_t}
    (hok : config_sae_pwe h t c = .ok c2) :
    (lua_getfield t "sae_pwe" = .nil ∧ c2 = c) ∨
    ∃ v, luaL_checkinteger h "sae_pwe" (lua_getfield t "sae_pwe") = .ok v ∧
      c2 = { c with sae_pwe_h2e := to_uint32 v } := by
  unfold config_sae_pwe at hok
  split at hok
  · rename_i hnil
    exact .inl ⟨(isnoneornil_iff _).mp hnil, by simpa using hok.symm⟩
  · split at hok
    · simp at hok
    · rename_i v hv
      exact .inr ⟨v, hv, by simpa using hok.symm⟩

/-- Step `ssid`: an error is the error of its helper. -/
theorem config_ssid_error {h : Host} {t : LuaTable} {c : wifi_sta_config_t} {e : LuaError}
    (herr : config_ssid h t c = .error e) :
    luaL_checklstring h "ssid" (lua_getfield t "ssid") = .error e := by
  unfold config_ssid at herr
  split at herr
  · rename_i e1 h1
    simp at herr
    rw [← herr]; exact h1
  · simp at herr

/-- Step `pwd`: an error is the error of its helper. -/
theorem config_pwd_error {h : Host} {t : LuaTable} {c : wifi_sta_config_t} {e : LuaError}
    (herr : config_pwd h t c = .error e) :
    luaL_optlstring h "pwd" (lua_getfield t "pwd") [] = .error e := by
  unfold config_pwd at herr
  split at herr
  · rename_i e1 h1
    simp at herr
    rw [← herr]; exact h1
  · simp at herr

/-- Step `bssid`: an error is the error of its helper, or the invalid-BSSID
error raised when the loop over the formats leaves `bssid_set` false. -/
theorem config_bssid_error {h : Host} {t : LuaTable} {c : wifi_sta_config_t} {e : LuaError}
    (herr : config_bssid h t c = .error e) :
    luaL_checklstring h "bssid" (lua_getfield t "bssid") = .error e ∨
    ∃ str, luaL_checklstring h "bssid" (lua_getfield t "bssid") = .ok str ∧
      (bssid_loop h (cstr str) bssid_fmts c.bssid).2 = false ∧ e = .invalid_bssid (cstr str) := by
  unfold config_bssid at herr
  simp only [] at herr
  split at herr
  · simp at herr
  · split at herr
    · rename_i e1 h1
      simp at herr
      left; rw [← herr]; exact h1
    · rename_i str hstr
      split at herr
      · simp at herr
      · rename_i hset
        right
        exact ⟨str, hstr, by simpa using hset, by simpa using herr.symm⟩

/-- Step `pmf`: an error is the error of its helper. -/
theorem config_pmf_error {h : Host} {t : LuaTable} {c : wifi_sta_config_t} {e : LuaError}
    (herr : config_pmf h t c = .error e) :
    luaL_checkinteger h "pmf" (lua_getfield t "pmf") = .error e := by
  unfold config_pmf at herr
  split at herr
  · simp at herr
  · split at herr
    · rename_i e1 h1
      simp at herr
      rw [← herr]; exact h1
    · simp at herr

/-- Step `channel`: an error is the error of its helper. -/
theorem config_channel_error {h : Host} {t : LuaTable} {c : wifi_sta_config_t} {e : LuaError}
    (herr : config_channel h t c = .error e) :
    luaL_checkinteger h "channel" (lua_getfield t "channel") = .error e := by
  unfold config_channel at herr
  split at herr
  · simp at herr
  · split at herr
    · rename_i e1 h1
      simp at herr
      rw [← herr]; exact h1
    · simp at herr

/-- Step `scan_method`: an error is the error of its helper. -/
theorem config_scan_method_error {h : Host} {t : LuaTable} {c : wifi_sta_config_t} {e : LuaError}
    (herr : config_scan_method h t c = .error e) :
    luaL_checkoption h "scan_method" (lua_getfield t "scan_method")
      (scan_method_keys h) = .error e := by
  unfold config_scan_method at herr
  split at herr
  · simp at herr
  · split at herr
    · rename_i e1 h1
      simp at herr
      rw [← herr]; exact h1
    · simp at herr

/-- Step `listen_interval`: an error is the error of its helper. -/
theorem config_listen_interval_error {h : Host} {t : LuaTable} {c : wifi_sta_config_t} {e : LuaError}
    (herr : config_listen_interval h t c = .error e) :
    luaL_checkinteger h "listen_interval" (lua_getfield t "listen_interval") = .error e := by
  unfold config_listen_interval at herr
  split at herr
  · simp at herr
  · split at herr
    · rename_i e1 h1
      simp at herr
      rw [← herr]; exact h1
    · simp at herr

/-- Step `sort_by`: an error is the error of its helper. -/
theorem config_sort_by_error {h : Host} {t : LuaTable} {c : wifi_sta_config_t} {e : LuaError}
    (herr : config_sort_by h t c = .error e) :
    luaL_checkoption h "sort_by" (lua_getfield t "sort_by")
      (sort_by_keys h) = .error e := by
  unfold config_sort_by at herr
  split at herr
  · simp at herr
  · split at herr
    · rename_i e1 h1
      simp at herr
      rw [← herr]; exact h1
    · simp at herr

/-- Step `threshold_rssi`: an error is the error of its helper. -/
theorem config_threshold_rssi_error {h : Host} {t : LuaTable} {c : wifi_sta_config_t} {e : LuaError}
    (herr : config_threshold_rssi h t c = .error e) :
    luaL_checkinteger h "threshold_rssi" (lua_getfield t "threshold_rssi") = .error e := by
  unfold config_threshold_rssi at herr
  split at herr
  · simp at herr
  · split at herr
    · rename_i e1 h1
      simp at herr
      rw [← herr]; exact h1
    · simp at herr

/-- Step `threshold_authmode`: an error is the error of its helper. -/
theorem config_threshold_authmode_error {h : Host} {t : LuaTable} {c : wifi_sta_config_t} {e : LuaError}
    (herr : config_threshold_authmode h t c = .error e) :
    luaL_checkinteger h "threshold_authmode" (lua_getfield t "threshold_authmode") = .error e := by
  unfold config_threshold_authmode at herr
  split at herr
  · simp at herr
  · split at herr
    · rename_i e1 h1
      simp at herr
      rw [← herr]; exact h1
    · simp at herr

/-- Step `sae_pwe`: an error is the error of its helper. -/
theorem config_sae_pwe_error {h : Host} {t : LuaTable} {c : wifi_sta_config_t} {e : LuaError}
    (herr : config_sae_pwe h t c = .error e) :
    luaL_checkinteger h "sae_pwe" (lua_getfield t "sae_pwe") = .error e := by
  unfold config_sae_pwe at herr
  split at herr
  · simp at herr
  · split at herr
    · rename_i e1 h1
      simp at herr
      rw [← herr]; exact h1
    · simp at herr

/-- The record builder succeeds exactly when its twelve steps do, each on the
record left by the one before. -/
theorem record_ok_steps {h : Host} {t : LuaTable} {cfg : wifi_sta_config_t}
    (hok : wifi_sta_config_record h t = .ok cfg) :
    ∃ c1 c2 c3 c4 c5 c6 c7 c8 c9 c10 c11,
      config_ssid h t cfg_zero = .ok c1 ∧ config_pwd h t c1 = .ok c2 ∧
      config_bssid h t c2 = .ok c3 ∧ config_pmf h t c3 = .ok c4 ∧
      config_channel h t c4 = .ok c5 ∧ config_scan_method h t c5 = .ok c6 ∧
      config_listen_interval h t c6 = .ok c7 ∧ config_sort_by h t c7 = .ok c8 ∧
      config_threshold_rssi h t c8 = .ok c9 ∧ config_threshold_authmode h t c9 = .ok c10 ∧
      config_toggles h t c10 = .ok c11 ∧ config_sae_pwe h t c11 = .ok cfg := by
  unfold wifi_sta_config_record at hok
  obtain ⟨c11, hok, h12⟩ := (bind_ok _ _ _).mp hok
  obtain ⟨c10, hok, h11⟩ := (bind_ok _ _ _).mp hok
  obtain ⟨c9, hok, h10⟩ := (bind_ok _ _ _).mp hok
  obtain ⟨c8, hok, h9⟩ := (bind_ok _ _ _).mp hok
  obtain ⟨c7, hok, h8⟩ := (bind_ok _ _ _).mp hok
  obtain ⟨c6, hok, h7⟩ := (bind_ok _ _ _).mp hok
  obtain ⟨c5, hok, h6⟩ := (bind_ok _ _ _).mp hok
  obtain ⟨c4, hok, h5⟩ := (bind_ok _ _ _).mp hok
  obtain ⟨c3, hok, h4⟩ := (bind_ok _ _ _).mp hok
  obtain ⟨c2, hok, h3⟩ := (bind_ok _ _ _).mp hok
  obtain ⟨c1, h1, h2⟩ := (bind_ok _ _ _).mp hok
  exact ⟨c1, c2, c3, c4, c5, c6, c7, c8, c9, c10, c11,
    h1, h2, h3, h4, h5, h6, h7, h8, h9, h10, h11, h12⟩

/-- An error of the record builder is the error of one of its steps, run on
the record left by the steps before it. -/
theorem record_error_steps {h : Host} {t : LuaTable} {e : LuaError}
    (herr : wifi_sta_config_record h t = .error e) :
    (∃ c, config_ssid h t c = .error e) ∨ (∃ c, config_pwd h t c = .error e) ∨
    (∃ c, config_bssid h t c = .error e) ∨ (∃ c, config_pmf h t c = .error e) ∨
    (∃ c, config_channel h t c = .error e) ∨ (∃ c, config_scan_method h t c = .error e) ∨
    (∃ c, config_listen_interval h t c = .error e) ∨ (∃ c, config_sort_by h t c = .error e) ∨
    (∃ c, config_threshold_rssi h t c = .error e) ∨
    (∃ c, config_threshold_authmode h t c = .error e) ∨
    (∃ c, config_toggles h t c = .error e) ∨ (∃ c, config_sae_pwe h t c = .error e) := by
  unfold wifi_sta_config_record at herr
  rcases (bind_error _ _ _).mp herr with herr | ⟨c, _, hc⟩
  swap; · exact .inr (.inr (.inr (.inr (.inr (.inr (.inr (.inr (.inr (.inr (.inr ⟨c, hc⟩))))))))))
  rcases (bind_error _ _ _).mp herr with herr | ⟨c, _, hc⟩
  swap; · exact .inr (.inr (.inr (.inr (.inr (.inr (.inr (.inr (.inr (.inr (.inl ⟨c, hc⟩))))))))))
  rcases (bind_error _ _ _).mp herr with herr | ⟨c, _, hc⟩
  swap; · exact .inr (.inr (.inr (.inr (.inr (.inr (.inr (.inr (.inr (.inl ⟨c, hc⟩)))))))))
  rcases (bind_error _ _ _).mp herr with herr | ⟨c, _, hc⟩
  swap; · exact .inr (.inr (.inr (.inr (.inr (.inr (.inr (.inr (.inl ⟨c, hc⟩))))))))
  rcases (bind_error _ _ _).mp herr with herr | ⟨c, _, hc⟩
  swap; · exact .inr (.inr (.inr (.inr (.inr (.inr (.inr (.inl ⟨c, hc⟩)))))))
  rcases (bind_error _ _ _).mp herr with herr | ⟨c, _, hc⟩
  swap; · exact .inr (.inr (.inr (.inr (.inr (.inr (.inl ⟨c, hc⟩))))))
  rcases (bind_error _ _ _).mp herr with herr | ⟨c, _, hc⟩
  swap; · exact .inr (.inr (.inr (.inr (.inr (.inl ⟨c, hc⟩)))))
  rcases (bind_error _ _ _).mp herr with herr | ⟨c, _, hc⟩
  swap; · exact .inr (.inr (.inr (.inr (.inl ⟨c, hc⟩))))
  rcases (bind_error _ _ _).mp herr with herr | ⟨c, _, hc⟩
  swap; · exact .inr (.inr (.inr (.inl ⟨c, hc⟩)))
  rcases (bind_error _ _ _).mp herr with herr | ⟨c, _, hc⟩
  swap; · exact .inr (.inr (.inl ⟨c, hc⟩))
  rcases (bind_error _ _ _).mp herr with herr | ⟨c, _, hc⟩
  swap; · exact .inr (.inl ⟨c, hc⟩)
  exact .inl ⟨_, herr⟩

/-- Kind of an error of the record builder: an argument error naming one of
the fields, or the invalid-BSSID error. -/
theorem record_error_kind {h : Host} {t : LuaTable} {e : LuaError}
    (herr : wifi_sta_config_record h t = .error e) :
    (∃ what, e = .bad_argument what) ∨ ∃ b, e = .invalid_bssid b := by
  rcases record_error_steps herr with ⟨c, hc⟩ | ⟨c, hc⟩ | ⟨c, hc⟩ | ⟨c, hc⟩ | ⟨c, hc⟩ | ⟨c, hc⟩ |
    ⟨c, hc⟩ | ⟨c, hc⟩ | ⟨c, hc⟩ | ⟨c, hc⟩ | ⟨c, hc⟩ | ⟨c, hc⟩
  · exact .inl ⟨_, luaL_checklstring_error (config_ssid_error hc)⟩
  · have := config_pwd_error hc
    unfold luaL_optlstring at this
    split at this
    · simp at this
    · exact .inl ⟨_, luaL_checklstring_error this⟩
  · rcases config_bssid_error hc with h1 | ⟨str, _, _, h1⟩
    · exact .inl ⟨_, luaL_checklstring_error h1⟩
    · exact .inr ⟨_, h1⟩
  · exact .inl ⟨_, luaL_checkinteger_error (config_pmf_error hc)⟩
  · exact .inl ⟨_, luaL_checkinteger_error (config_channel_error hc)⟩
  · exact .inl ⟨_, luaL_checkoption_error (config_scan_method_error hc)⟩
  · exact .inl ⟨_, luaL_checkinteger_error (config_listen_interval_error hc)⟩
  · exact .inl ⟨_, luaL_checkoption_error (config_sort_by_error hc)⟩
  · exact .inl ⟨_, luaL_checkinteger_error (config_threshold_rssi_error hc)⟩
  · exact .inl ⟨_, luaL_checkinteger_error (config_threshold_authmode_error hc)⟩
  · simp [config_toggles] at hc
  · exact .inl ⟨_, luaL_checkinteger_error (config_sae_pwe_error hc)⟩

/-- When the record builder fails, `wifi_sta_config` raises its error and
makes no driver call. -/
theorem config_of_record_error {h : Host} {d : ConfigDriver} {args : List LuaArg} {t : LuaTable}
    {e : LuaError} (ht : lua_arg args 1 = .table t)
    (herr : wifi_sta_config_record h t = .error e) :
    wifi_sta_config h d args = ⟨.error e, []⟩ := by
  unfold wifi_sta_config
  simp [ht, luaL_checktable, herr]

/-- Step `bssid`: success changes only `bssid` and `bssid_set`. -/
theorem config_bssid_frame {h : Host} {t : LuaTable} {c c2 : wifi_sta_config_t}
    (hok : config_bssid h t c = .ok c2) :
    ∃ bytes b, c2 = { c with bssid := bytes, bssid_set := b } := by
  rcases config_bssid_ok hok with ⟨_, hc⟩ | ⟨_, _, _, hc⟩
  · exact ⟨c.bssid, false, by rw [hc]⟩
  · exact ⟨_, _, hc⟩

/-- Step `channel`: success changes only the member `channel`. -/
theorem config_channel_frame {h : Host} {t : LuaTable} {c c2 : wifi_sta_config_t}
    (hok : config_channel h t c = .ok c2) : ∃ v, c2 = { c with channel := v } := by
  rcases config_channel_ok hok with ⟨_, hc⟩ | ⟨_, _, hc⟩
  · exact ⟨c.channel, by rw [hc]⟩
  · exact ⟨_, hc⟩

/-- Step `scan_method`: success changes only the member `scan_method`. -/
theorem config_scan_method_frame {h : Host} {t : LuaTable} {c c2 : wifi_sta_config_t}
    (hok : config_scan_method h t c = .ok c2) : ∃ v, c2 = { c with scan_method := v } := by
  rcases config_scan_method_ok hok with ⟨_, hc⟩ | ⟨_, _, hc⟩
  · exact ⟨c.scan_method, by rw [hc]⟩
  · exact ⟨_, hc⟩

/-- Step `listen_interval`: success changes only the member `listen_interval`. -/
theorem config_listen_interval_frame {h : Host} {t : LuaTable} {c c2 : wifi_sta_config_t}
    (hok : config_listen_interval h t c = .ok c2) : ∃ v, c2 = { c with listen_interval := v } := by
  rcases config_listen_interval_ok hok with ⟨_, hc⟩ | ⟨_, _, hc⟩
  · exact ⟨c.listen_interval, by rw [hc]⟩
  · exact ⟨_, hc⟩

/-- Step `sort_by`: success changes only the member `sort_method`. -/
theorem config_sort_by_frame {h : Host} {t : LuaTable} {c c2 : wifi_sta_config_t}
    (hok : config_sort_by h t c = .ok c2) : ∃ v, c2 = { c with sort_method := v } := by
  rcases config_sort_by_ok hok with ⟨_, hc⟩ | ⟨_, _, hc⟩
  · exact ⟨c.sort_method, by rw [hc]⟩
  · exact ⟨_, hc⟩

/-- Step `threshold_rssi`: success changes only the member `threshold_rssi`. -/
theorem config_threshold_rssi_frame {h : Host} {t : LuaTable} {c c2 : wifi_sta_config_t}
    (hok : config_threshold_rssi h t c = .ok c2) : ∃ v, c2 = { c with threshold_rssi := v } := by
  rcases config_threshold_rssi_ok hok with ⟨_, hc⟩ | ⟨_, _, hc⟩
  · exact ⟨c.threshold_rssi, by rw [hc]⟩
  · exact ⟨_, hc⟩

/-- Step `threshold_authmode`: success changes only the member `threshold_authmode`. -/
theorem config_threshold_authmode_frame {h : Host} {t : LuaTable} {c c2 : wifi_sta_config_t}
    (hok : config_threshold_authmode h t c = .ok c2) : ∃ v, c2 = { c with threshold_authmode := v } := by
  rcases config_threshold_authmode_ok hok with ⟨_, hc⟩ | ⟨_, _, hc⟩
  · exact ⟨c.threshold_authmode, by rw [hc]⟩
  · exact ⟨_, hc⟩

/-- Step `sae_pwe`: success changes only the member `sae_pwe_h2e`. -/
theorem config_sae_pwe_frame {h : Host} {t : LuaTable} {c c2 : wifi_sta_config_t}
    (hok : config_sae_pwe h t c = .ok c2) : ∃ v, c2 = { c with sae_pwe_h2e := v } := by
  rcases config_sae_pwe_ok hok with ⟨_, hc⟩ | ⟨_, _, hc⟩
  · exact ⟨c.sae_pwe_h2e, by rw [hc]⟩
  · exact ⟨_, hc⟩

/-- The member `scan_method` of a record built by the marshaller. -/
theorem record_scan_method {h : Host} {t : LuaTable} {cfg : wifi_sta_config_t}
    (hok : wifi_sta_config_record h t = .ok cfg) :
    (lua_getfield t "scan_method" = .nil ∧ cfg.scan_method = 0) ∨
    ∃ i, luaL_checkoption h "scan_method" (lua_getfield t "scan_method")
        (scan_method_keys h) = .ok i ∧
      cfg.scan_method = scan_method_vals h i := by
  obtain ⟨c1, c2, c3, c4, c5, c6, c7, c8, c9, c10, c11,
    h1, h2, h3, h4, h5, h6, h7, h8, h9, h10, h11, h12⟩ := record_ok_steps hok
  obtain ⟨_, _, hc⟩ := config_ssid_ok h1
  have e1_0 : c1.scan_method = cfg_zero.scan_method := by rw [hc]
  clear hc
  obtain ⟨_, _, hc⟩ := config_pwd_ok h2
  have e2_0 : c2.scan_method = c1.scan_method := by rw [hc]
  clear hc
  obtain ⟨_, _, hc⟩ := config_bssid_frame h3
  have e3_0 : c3.scan_method = c2.scan_method := by rw [hc]
  clear hc
  obtain ⟨_, hc⟩ := config_pmf_ok h4
  have e4_0 : c4.scan_method = c3.scan_method := by rw [hc]
  clear hc
  obtain ⟨_, hc⟩ := config_channel_frame h5
  have e5_0 : c5.scan_method = c4.scan_method := by rw [hc]
  clear hc
  obtain ⟨_, hc⟩ := config_listen_interval_frame h7
  have e7_0 : c7.scan_method = c6.scan_method := by rw [hc]
  clear hc
  obtain ⟨_, hc⟩ := config_sort_by_frame h8
  have e8_0 : c8.scan_method = c7.scan_method := by rw [hc]
  clear hc
  obtain ⟨_, hc⟩ := config_threshold_rssi_frame h9
  have e9_0 : c9.scan_method = c8.scan_method := by rw [hc]
  clear hc
  obtain ⟨_, hc⟩ := config_threshold_authmode_frame h10
  have e10_0 : c10.scan_method = c9.scan_method := by rw [hc]
  clear hc
  obtain ⟨_, _, _, hc⟩ := config_toggles_ok h11
  have e11_0 : c11.scan_method = c10.scan_method := by rw [hc]
  clear hc
  obtain ⟨_, hc⟩ := config_sae_pwe_frame h12
  have e12_0 : cfg.scan_method = c11.scan_method := by rw [hc]
  clear hc
  rcases config_scan_method_ok h6 with ⟨hnil, hck⟩ | ⟨i, hv, hck⟩
  · refine .inl ⟨hnil, ?_⟩
    rw [e12_0, e11_0, e10_0, e9_0, e8_0, e7_0, hck]
    rw [e5_0, e4_0, e3_0, e2_0, e1_0]
    rfl
  · refine .inr ⟨i, hv, ?_⟩
    rw [e12_0, e11_0, e10_0, e9_0, e8_0, e7_0, hck]

/-- The member `sort_method` of a record built by the marshaller. -/
theorem record_sort_by {h : Host} {t : LuaTable} {cfg : wifi_sta_config_t}
    (hok : wifi_sta_config_record h t = .ok cfg) :
    (lua_getfield t "sort_by" = .nil ∧ cfg.sort_method = 0) ∨
    ∃ i, luaL_checkoption h "sort_by" (lua_getfield t "sort_by")
        (sort_by_keys h) = .ok i ∧
      cfg.sort_method = sort_by_vals h i := by
  obtain ⟨c1, c2, c3, c4, c5, c6, c7, c8, c9, c10, c11,
    h1, h2, h3, h4, h5, h6, h7, h8, h9, h10, h11, h12⟩ := record_ok_steps hok
  obtain ⟨_, _, hc⟩ := config_ssid_ok h1
  have e1_0 : c1.sort_method = cfg_zero.sort_method := by rw [hc]
  clear hc
  obtain ⟨_, _, hc⟩ := config_pwd_ok h2
  have e2_0 : c2.sort_method = c1.sort_method := by rw [hc]
  clear hc
  obtain ⟨_, _, hc⟩ := config_bssid_frame h3
  have e3_0 : c3.sort_method = c2.sort_method := by rw [hc]
  clear hc
  obtain ⟨_, hc⟩ := config_pmf_ok h4
  have e4_0 : c4.sort_method = c3.sort_method := by rw [hc]
  clear hc
  obtain ⟨_, hc⟩ := config_channel_frame h5
  have e5_0 : c5.sort_method = c4.sort_method := by rw [hc]
  clear hc
  obtain ⟨_, hc⟩ := config_scan_method_frame h6
  have e6_0 : c6.sort_method = c5.sort_method := by rw [hc]
  clear hc
  obtain ⟨_, hc⟩ := config_listen_interval_frame h7
  have e7_0 : c7.sort_method = c6.sort_method := by rw [hc]
  clear hc
  obtain ⟨_, hc⟩ := config_threshold_rssi_frame h9
  have e9_0 : c9.sort_method = c8.sort_method := by rw [hc]
  clear hc
  obtain ⟨_, hc⟩ := config_threshold_authmode_frame h10
  have e10_0 : c10.sort_method = c9.sort_method := by rw [hc]
  clear hc
  obtain ⟨_, _, _, hc⟩ := config_toggles_ok h11
  have e11_0 : c11.sort_method = c10.sort_method := by rw [hc]
  clear hc
  obtain ⟨_, hc⟩ := config_sae_pwe_frame h12
  have e12_0 : cfg.sort_method = c11.sort_method := by rw [hc]
  clear hc
  rcases config_sort_by_ok h8 with ⟨hnil, hck⟩ | ⟨i, hv, hck⟩
  · refine .inl ⟨hnil, ?_⟩
    rw [e12_0, e11_0, e10_0, e9_0, hck]
    rw [e7_0, e6_0, e5_0, e4_0, e3_0, e2_0, e1_0]
    rfl
  · refine .inr ⟨i, hv, ?_⟩
    rw [e12_0, e11_0, e10_0, e9_0, hck]

/-- The members `bssid` and `bssid_set` of a record built by the marshaller. -/
theorem record_bssid {h : Host} {t : LuaTable} {cfg : wifi_sta_config_t}
    (hok : wifi_sta_config_record h t = .ok cfg) :
    (lua_getfield t "bssid" = .nil ∧ cfg.bssid_set = false ∧ cfg.bssid = List.replicate 6 0) ∨
    ∃ str, luaL_checklstring h "bssid" (lua_getfield t "bssid") = .ok str ∧
      (bssid_loop h (cstr str) bssid_fmts (List.replicate 6 0)).2 = true ∧
      cfg.bssid = (bssid_loop h (cstr str) bssid_fmts (List.replicate 6 0)).1 ∧
      cfg.bssid_set = true := by
  obtain ⟨c1, c2, c3, c4, c5, c6, c7, c8, c9, c10, c11,
    h1, h2, h3, h4, h5, h6, h7, h8, h9, h10, h11, h12⟩ := record_ok_steps hok
  obtain ⟨_, _, hc⟩ := config_ssid_ok h1
  have e1_0 : c1.bssid = cfg_zero.bssid := by rw [hc]
  have e1_1 : c1.bssid_set = cfg_zero.bssid_set := by rw [hc]
  clear hc
  obtain ⟨_, _, hc⟩ := config_pwd_ok h2
  have e2_0 : c2.bssid = c1.bssid := by rw [hc]
  have e2_1 : c2.bssid_set = c1.bssid_set := by rw [hc]
  clear hc
  obtain ⟨_, hc⟩ := config_pmf_ok h4
  have e4_0 : c4.bssid = c3.bssid := by rw [hc]
  have e4_1 : c4.bssid_set = c3.bssid_set := by rw [hc]
  clear hc
  obtain ⟨_, hc⟩ := config_channel_frame h5
  have e5_0 : c5.bssid = c4.bssid := by rw [hc]
  have e5_1 : c5.bssid_set = c4.bssid_set := by rw [hc]
  clear hc
  obtain ⟨_, hc⟩ := config_scan_method_frame h6
  have e6_0 : c6.bssid = c5.bssid := by rw [hc]
  have e6_1 : c6.bssid_set = c5.bssid_set := by rw [hc]
  clear hc
  obtain ⟨_, hc⟩ := config_listen_interval_frame h7
  have e7_0 : c7.bssid = c6.bssid := by rw [hc]
  have e7_1 : c7.bssid_set = c6.bssid_set := by rw [hc]
  clear hc
  obtain ⟨_, hc⟩ := config_sort_by_frame h8
  have e8_0 : c8.bssid = c7.bssid := by rw [hc]
  have e8_1 : c8.bssid_set = c7.bssid_set := by rw [hc]
  clear hc
  obtain ⟨_, hc⟩ := config_threshold_rssi_frame h9
  have e9_0 : c9.bssid = c8.bssid := by rw [hc]
  have e9_1 : c9.bssid_set = c8.bssid_set := by rw [hc]
  clear hc
  obtain ⟨_, hc⟩ := config_threshold_authmode_frame h10
  have e10_0 : c10.bssid = c9.bssid := by rw [hc]
  have e10_1 : c10.bssid_set = c9.bssid_set := by rw [hc]
  clear hc
  obtain ⟨_, _, _, hc⟩ := config_toggles_ok h11
  have e11_0 : c11.bssid = c10.bssid := by rw [hc]
  have e11_1 : c11.bssid_set = c10.bssid_set := by rw [hc]
  clear hc
  obtain ⟨_, hc⟩ := config_sae_pwe_frame h12
  have e12_0 : cfg.bssid = c11.bssid := by rw [hc]
  have e12_1 : cfg.bssid_set = c11.bssid_set := by rw [hc]
  clear hc
  have hz : c2.bssid = List.replicate 6 0 := by rw [e2_0, e1_0]; rfl
  rcases config_bssid_ok h3 with ⟨hnil, hck⟩ | ⟨str, hstr, hset, hck⟩
  · refine .inl ⟨hnil, ?_, ?_⟩
    · rw [e12_1, e11_1, e10_1, e9_1, e8_1, e7_1, e6_1, e5_1, e4_1, hck]
    · rw [e12_0, e11_0, e10_0, e9_0, e8_0, e7_0, e6_0, e5_0, e4_0, hck]
      exact hz
  · rw [hz] at hset hck
    refine .inr ⟨str, hstr, hset, ?_, ?_⟩
    · rw [e12_0, e11_0, e10_0, e9_0, e8_0, e7_0, e6_0, e5_0, e4_0, hck]
    · rw [e12_1, e11_1, e10_1, e9_1, e8_1, e7_1, e6_1, e5_1, e4_1, hck]

/-! ## Theorems: scan coordinator -/

/-- A slot removed by the filter of `luaL_unref` reads as nil. -/
theorem slot_filter_self (reg : Registry) (n : Nat) :
    Registry.slot (reg.filter (fun e => e.1 ≠ n)) n = .nil := by
  induction reg with
  | nil => rfl
  | cons e rest ih =>
    obtain ⟨k, v⟩ := e
    rw [List.filter_cons]
    split
    · rename_i hp
      have hk : k ≠ n := by simpa using hp
      simp only [Registry.slot, hk, if_false]
      exact ih
    · exact ih

/-- After `luaL_unref`, the reference reads as nil. -/
theorem rawgeti_unref (reg : Registry) (ref : Int) :
    lua_rawgeti (luaL_unref reg ref) ref = .nil := by
  unfold lua_rawgeti luaL_unref
  by_cases hneg : ref < 0
  · simp [hneg]
  · have hpos : 0 ≤ ref := by omega
    rw [if_neg hneg, if_pos hpos]
    exact slot_filter_self reg ref.toNat

/-- On an array whose indices are all at most `i`, setting index `i + 1`
appends. -/
theorem rawseti_append (arr : LuaArray) (i : Nat) (v : LuaTable)
    (hle : ∀ e ∈ arr, e.1 ≤ i) : lua_rawseti arr (i + 1) v = arr ++ [(i + 1, v)] := by
  unfold lua_rawseti
  congr 1
  apply List.filter_eq_self.mpr
  intro e he
  have := hle e he
  simp
  omega

/-- The loop of `on_scan_done` appends one entry per record, in order, at
consecutive indices. -/
theorem scan_fill_eq (h : Host) (recs : List wifi_ap_record_t) :
    ∀ (i : Nat) (arr : LuaArray), (∀ e ∈ arr, e.1 ≤ i) →
      scan_fill h recs i arr =
        arr ++ List.zip (List.range' (i + 1) recs.length) (recs.map (scan_entry h)) := by
  induction recs with
  | nil => intro i arr _; simp [scan_fill]
  | cons ap rest ih =>
    intro i arr hle
    have hle2 : ∀ e ∈ arr ++ [(i + 1, scan_entry h ap)], e.1 ≤ i + 1 := by
      intro e he
      rcases List.mem_append.mp he with h1 | h1
      · exact Nat.le_succ_of_le (hle e h1)
      · simp at h1; subst h1; exact Nat.le_refl _
    simp only [scan_fill]
    rw [rawseti_append arr i _ hle, ih (i + 1) _ hle2]
    simp [List.range'_succ]

/-- C1 (exclusivity): in every state whose `scan_cb_ref` holds a callback
handle, and for every argument list, `wifi_sta_scan` fails with "scan already
in progress", sends no scan request to the driver, and leaves the scan state
(the handle and the registry) exactly as it was. -/
theorem wifi_sta_scan_exclusive (h : Host) (d : ScanDriver) (st : ScanState)
    (args : List LuaArg) (hin : st.scan_cb_ref ≠ LUA_NOREF) :
    (wifi_sta_scan h d st args).result = .error .scan_in_progress ∧
    (wifi_sta_scan h d st args).started = [] ∧
    (wifi_sta_scan h d st args).state = st := by
  simp [wifi_sta_scan, hin]

/-- Witness of C1: a second scan request while the handle of slot 1 is stored. -/
theorem wifi_sta_scan_exclusive_witness :
    (⟨1, [(1, .func 7)]⟩ : ScanState).scan_cb_ref ≠ LUA_NOREF ∧
    (wifi_sta_scan sample_host (sample_driver []) ⟨1, [(1, .func 7)]⟩
        [.table [], .val (.func 8)]).result = .error .scan_in_progress ∧
    (wifi_sta_scan sample_host (sample_driver []) ⟨1, [(1, .func 7)]⟩
        [.table [], .val (.func 8)]).started = [] ∧
    (wifi_sta_scan sample_host (sample_driver []) ⟨1, [(1, .func 7)]⟩
        [.table [], .val (.func 8)]).state = ⟨1, [(1, .func 7)]⟩ :=
  ⟨by decide, wifi_sta_scan_exclusive sample_host (sample_driver []) ⟨1, [(1, .func 7)]⟩
    [.table [], .val (.func 8)] (by decide)⟩

/-- The scan state after `on_scan_done` does not depend on the branch taken. -/
theorem on_scan_done_state (h : Host) (d : ScanDriver) (st : ScanState) :
    (on_scan_done h d st).state = ⟨LUA_NOREF, luaL_unref st.registry st.scan_cb_ref⟩ := by
  unfold on_scan_done
  simp only []
  split
  · rfl
  · split
    · rfl
    · split <;> rfl

/-- C2 (completion resets state): for every prior state, every host runtime
and every driver outcome (count or records failing or not, allocation failing
or not), after `on_scan_done` the cell `scan_cb_ref` is `LUA_NOREF`, the
registry is the old one with the stored reference released, and the old
reference reads as nil. -/
theorem on_scan_done_resets (h : Host) (d : ScanDriver) (st : ScanState) :
    (on_scan_done h d st).state.scan_cb_ref = LUA_NOREF ∧
    (on_scan_done h d st).state.registry = luaL_unref st.registry st.scan_cb_ref ∧
    lua_rawgeti (on_scan_done h d st).state.registry st.scan_cb_ref = .nil := by
  rw [on_scan_done_state]
  exact ⟨rfl, rfl, rawgeti_unref _ _⟩

/-- C4 at the failing input: a scan is in flight, the driver reports the
count 0 and then 0 records, both with `ESP_OK`, and the allocator gives NULL
for the buffer of zero bytes; the test `(aps)` of line 487 then fails and the
callback is called once with the one argument "failure on scan done", not with
nil and an empty list. -/
theorem on_scan_done_empty_reports_failure :
    lua_rawgeti [(1, .func 7)] 1 = .func 7 ∧
    (sample_driver []).esp_wifi_scan_get_ap_num = (ESP_OK, 0) ∧
    (sample_driver []).esp_wifi_scan_get_ap_records 0 = (ESP_OK, []) ∧
    (on_scan_done sample_host (sample_driver []) ⟨1, [(1, .func 7)]⟩).calls =
      [⟨.func 7, [.val (.str failure_on_scan_done)]⟩] ∧
    (on_scan_done sample_host (sample_driver []) ⟨1, [(1, .func 7)]⟩).calls ≠
      [⟨.func 7, [.val .nil, .array []]⟩] := by
  decide

/-- The path of `on_scan_done` on which the buffer is a block: when the count
call and the record call succeed, the stored callback is called exactly once
with the two arguments nil and a list holding one entry per record, in driver
order, at the indices 1, 2, ... -/
theorem on_scan_done_delivers_list (h : Host) (d : ScanDriver) (st : ScanState) (id : Nat)
    (hcb : lua_rawgeti st.registry st.scan_cb_ref = .func id)
    (hnum : d.esp_wifi_scan_get_ap_num.1 = ESP_OK)
    (halloc : h.luaM_malloc (d.esp_wifi_scan_get_ap_num.2 * h.sizeof_ap_record) = .block)
    (hrecs : (d.esp_wifi_scan_get_ap_records d.esp_wifi_scan_get_ap_num.2).1 = ESP_OK) :
    (on_scan_done h d st).calls =
      [⟨.func id, [.val .nil, .array (List.zip
        (List.range' 1 (d.esp_wifi_scan_get_ap_records d.esp_wifi_scan_get_ap_num.2).2.length)
        ((d.esp_wifi_scan_get_ap_records d.esp_wifi_scan_get_ap_num.2).2.map
          (scan_entry h)))]⟩] := by
  have hfill := scan_fill_eq h (d.esp_wifi_scan_get_ap_records d.esp_wifi_scan_get_ap_num.2).2 0 []
    (by simp)
  unfold on_scan_done
  simp only [hcb, lua_isnoneornil]
  simp [hnum, halloc, hrecs, hfill]

/-- The same path at two access points: the callback gets nil and the two
entries at indices 1 and 2. -/
theorem on_scan_done_delivers_list_witness :
    (on_scan_done sample_host (sample_driver sample_aps) ⟨1, [(1, .func 7)]⟩).calls =
      [⟨.func 7, [.val .nil, .array
        [(1, scan_entry sample_host ⟨[0, 17, 34, 51, 68, 85], "home".toList, 6, 0, -40, 3⟩),
         (2, scan_entry sample_host
           ⟨[170, 187, 204, 221, 238, 255], "cafe".toList, 11, 1, -71, 0⟩)]]⟩] :=
  on_scan_done_delivers_list sample_host (sample_driver sample_aps) ⟨1, [(1, .func 7)]⟩ 7
    (by decide) (by decide) (by decide) (by decide)

/-- C5 at the failing input: from the idle state, a scan request whose filter
has a boolean `ssid` and whose callback is a function raises the argument
error of `luaL_optstring`, never reaches the driver, and yet leaves the
callback stored in slot 1 with `scan_cb_ref = 1`: the state is in flight. -/
theorem wifi_sta_scan_bad_filter_keeps_handle :
    wifi_sta_scan sample_host (sample_driver []) ⟨LUA_NOREF, []⟩
        [.table [("ssid", .bool true)], .val (.func 7)] =
      ⟨.error (.bad_argument "ssid"), ⟨1, [(1, .func 7)]⟩, []⟩ ∧
    (wifi_sta_scan sample_host (sample_driver []) ⟨LUA_NOREF, []⟩
        [.table [("ssid", .bool true)], .val (.func 7)]).state.scan_cb_ref ≠ LUA_NOREF := by
  decide

/-! ## Theorems: configuration marshaller -/

/-- What `wifi_sta_getconfig` puts under the key `bssid`. -/
theorem getconfig_bssid (cfg : wifi_sta_config_t) :
    lua_getfield (getconfig_table cfg) "bssid" = (if cfg.bssid_set then .str (macstr cfg.bssid) else .nil) := by
  unfold getconfig_table
  cases cfg.bssid_set <;> cases scan_method_name cfg.scan_method <;>
    cases sort_method_name cfg.sort_method <;>
    simp only [getfield_setfield_same, getfield_setfield_other, ne_eq, String.reduceEq,
      not_false_eq_true, not_true_eq_false, Bool.false_eq_true, if_false, if_true] <;> rfl

/-- What `wifi_sta_getconfig` puts under the key `scan_method`. -/
theorem getconfig_scan_method (cfg : wifi_sta_config_t) :
    lua_getfield (getconfig_table cfg) "scan_method" = (match scan_method_name cfg.scan_method with
      | some name => .str name
      | none => .nil) := by
  unfold getconfig_table
  cases cfg.bssid_set <;> cases scan_method_name cfg.scan_method <;>
    cases sort_method_name cfg.sort_method <;>
    simp only [getfield_setfield_same, getfield_setfield_other, ne_eq, String.reduceEq,
      not_false_eq_true, not_true_eq_false, Bool.false_eq_true, if_false, if_true] <;> rfl

/-- What `wifi_sta_getconfig` puts under the key `sort_by`. -/
theorem getconfig_sort_by (cfg : wifi_sta_config_t) :
    lua_getfield (getconfig_table cfg) "sort_by" = (match sort_method_name cfg.sort_method with
      | some name => .str name
      | none => .nil) := by
  unfold getconfig_table
  cases cfg.bssid_set <;> cases scan_method_name cfg.scan_method <;>
    cases sort_method_name cfg.sort_method <;>
    simp only [getfield_setfield_same, getfield_setfield_other, ne_eq, String.reduceEq,
      not_false_eq_true, not_true_eq_false, Bool.false_eq_true, if_false, if_true] <;> rfl

/-- On a record delivered by the driver, `wifi_sta_getconfig` returns the
table built from it. -/
theorem getconfig_of_record {d : ConfigDriver} {cfg : wifi_sta_config_t}
    (hd : d.esp_wifi_get_config = (ESP_OK, cfg)) :
    wifi_sta_getconfig d = .ok (getconfig_table cfg) := by
  simp [wifi_sta_getconfig, hd]

/-- The walk of `luaL_checkoption` finds each of the four symbols inside its
array, at index 0 or 1, whatever lies behind the array. -/
theorem checkoption_symbols (h : Host) (what : String) :
    luaL_checkoption h what (.str "fast".toList) (scan_method_keys h) = .ok 0 ∧
    luaL_checkoption h what (.str "all".toList) (scan_method_keys h) = .ok 1 ∧
    luaL_checkoption h what (.str "rssi".toList) (sort_by_keys h) = .ok 0 ∧
    luaL_checkoption h what (.str "authmode".toList) (sort_by_keys h) = .ok 1 := by
  have h1 : cstr "fast".toList = "fast".toList := by decide
  have h2 : cstr "all".toList = "all".toList := by decide
  have h3 : cstr "rssi".toList = "rssi".toList := by decide
  have h4 : cstr "authmode".toList = "authmode".toList := by decide
  have n1 : "fast".toList ≠ "all".toList := by decide
  have n2 : "rssi".toList ≠ "authmode".toList := by decide
  refine ⟨?_, ?_, ?_, ?_⟩
  · simp only [luaL_checkoption, luaL_checklstring, h1, scan_method_keys, List.cons_append,
      option_walk, if_true]
  · simp only [luaL_checkoption, luaL_checklstring, h2, scan_method_keys, List.cons_append,
      option_walk, n1, if_false, if_true]
  · simp only [luaL_checkoption, luaL_checklstring, h3, sort_by_keys, List.cons_append,
      option_walk, if_true]
  · simp only [luaL_checkoption, luaL_checklstring, h4, sort_by_keys, List.cons_append,
      option_walk, n2, if_false, if_true]

/-- C10 (read-back projection): on every record the driver delivers with
`ESP_OK`, `wifi_sta_getconfig` returns a table; the table has a `bssid` entry
exactly when `bssid_set` is true; it has a `scan_method` entry exactly when the
stored code is `WIFI_FAST_SCAN` (read as "fast") or `WIFI_ALL_CHANNEL_SCAN`
(read as "all"), and a `sort_by` entry exactly when the stored code is
`WIFI_CONNECT_AP_BY_SIGNAL` ("rssi") or `WIFI_CONNECT_AP_BY_SECURITY`
("authmode"); and when the record is one built by `wifi_sta_config` from a
table whose `scan_method` or `sort_by` is one of the four symbols, that same
symbol is read back. -/
theorem wifi_sta_getconfig_projection (d : ConfigDriver) (cfg : wifi_sta_config_t)
    (hd : d.esp_wifi_get_config = (ESP_OK, cfg)) :
    ∃ tbl, wifi_sta_getconfig d = .ok tbl ∧
      (lua_getfield tbl "bssid" ≠ .nil ↔ cfg.bssid_set = true) ∧
      (lua_getfield tbl "scan_method" ≠ .nil ↔
        (cfg.scan_method = WIFI_FAST_SCAN ∨ cfg.scan_method = WIFI_ALL_CHANNEL_SCAN)) ∧
      (cfg.scan_method = WIFI_FAST_SCAN → lua_getfield tbl "scan_method" = .str "fast".toList) ∧
      (cfg.scan_method = WIFI_ALL_CHANNEL_SCAN →
        lua_getfield tbl "scan_method" = .str "all".toList) ∧
      (lua_getfield tbl "sort_by" ≠ .nil ↔
        (cfg.sort_method = WIFI_CONNECT_AP_BY_SIGNAL ∨
          cfg.sort_method = WIFI_CONNECT_AP_BY_SECURITY)) ∧
      (cfg.sort_method = WIFI_CONNECT_AP_BY_SIGNAL →
        lua_getfield tbl "sort_by" = .str "rssi".toList) ∧
      (cfg.sort_method = WIFI_CONNECT_AP_BY_SECURITY →
        lua_getfield tbl "sort_by" = .str "authmode".toList) ∧
      (∀ (h : Host) (t : LuaTable), wifi_sta_config_record h t = .ok cfg →
        (∀ s, s = "fast".toList ∨ s = "all".toList → lua_getfield t "scan_method" = .str s →
          lua_getfield tbl "scan_method" = .str s) ∧
        (∀ s, s = "rssi".toList ∨ s = "authmode".toList → lua_getfield t "sort_by" = .str s →
          lua_getfield tbl "sort_by" = .str s)) := by
  have hfast : scan_method_name WIFI_FAST_SCAN = some "fast".toList := by decide
  have hall : scan_method_name WIFI_ALL_CHANNEL_SCAN = some "all".toList := by decide
  have hrssi : sort_method_name WIFI_CONNECT_AP_BY_SIGNAL = some "rssi".toList := by decide
  have hauth : sort_method_name WIFI_CONNECT_AP_BY_SECURITY = some "authmode".toList := by
    decide
  refine ⟨getconfig_table cfg, getconfig_of_record hd, ?_, ?_, ?_, ?_, ?_, ?_, ?_, ?_⟩
  · rw [getconfig_bssid]
    cases cfg.bssid_set <;> simp
  · rw [getconfig_scan_method]
    by_cases h1 : cfg.scan_method = WIFI_FAST_SCAN
    · rw [h1, hfast]; simp
    · by_cases h2 : cfg.scan_method = WIFI_ALL_CHANNEL_SCAN
      · rw [h2, hall]; simp
      · have hn : scan_method_name cfg.scan_method = none := by
          unfold scan_method_name; simp [h1, h2]
        rw [hn]; simp [h1, h2]
  · intro h1
    rw [getconfig_scan_method, h1, hfast]
  · intro h1
    rw [getconfig_scan_method, h1, hall]
  · rw [getconfig_sort_by]
    by_cases h1 : cfg.sort_method = WIFI_CONNECT_AP_BY_SIGNAL
    · rw [h1, hrssi]; simp
    · by_cases h2 : cfg.sort_method = WIFI_CONNECT_AP_BY_SECURITY
      · rw [h2, hauth]; simp
      · have hn : sort_method_name cfg.sort_method = none := by
          unfold sort_method_name; simp [h1, h2]
        rw [hn]; simp [h1, h2]
  · intro h1
    rw [getconfig_sort_by, h1, hrssi]
  · intro h1
    rw [getconfig_sort_by, h1, hauth]
  · intro h t hok
    obtain ⟨k1, k2, k3, k4⟩ := checkoption_symbols h "scan_method"
    obtain ⟨m1, m2, m3, m4⟩ := checkoption_symbols h "sort_by"
    constructor
    · intro s hsym hs
      rcases record_scan_method hok with ⟨hnil, _⟩ | ⟨i, hi, hc⟩
      · rw [hs] at hnil; simp at hnil
      · rw [hs] at hi
        rcases hsym with rfl | rfl
        · rw [k1] at hi
          have hi0 : i = 0 := by simpa using hi.symm
          subst hi0
          rw [getconfig_scan_method, hc]; rfl
        · rw [k2] at hi
          have hi1 : i = 1 := by simpa using hi.symm
          subst hi1
          rw [getconfig_scan_method, hc]; rfl
    · intro s hsym hs
      rcases record_sort_by hok with ⟨hnil, _⟩ | ⟨i, hi, hc⟩
      · rw [hs] at hnil; simp at hnil
      · rw [hs] at hi
        rcases hsym with rfl | rfl
        · rw [m3] at hi
          have hi0 : i = 0 := by simpa using hi.symm
          subst hi0
          rw [getconfig_sort_by, hc]; rfl
        · rw [m4] at hi
          have hi1 : i = 1 := by simpa using hi.symm
          subst hi1
          rw [getconfig_sort_by, hc]; rfl

/-- Witness of C10: a record written from `scan_method = "all"` and
`sort_by = "authmode"` reads back with these two symbols and without `bssid`. -/
theorem wifi_sta_getconfig_projection_witness :
    (sample_config_driver sample_enum_cfg).esp_wifi_get_config = (ESP_OK, sample_enum_cfg) ∧
    wifi_sta_config_record sample_host [("ssid", .str "x".toList),
        ("scan_method", .str "all".toList), ("sort_by", .str "authmode".toList)] =
      .ok sample_enum_cfg ∧
    ∃ tbl, wifi_sta_getconfig (sample_config_driver sample_enum_cfg) = .ok tbl ∧
      (lua_getfield tbl "bssid" ≠ .nil ↔ sample_enum_cfg.bssid_set = true) ∧
      lua_getfield tbl "scan_method" = .str "all".toList ∧
      lua_getfield tbl "sort_by" = .str "authmode".toList :=
  ⟨rfl, by decide,
   match wifi_sta_getconfig_projection (sample_config_driver sample_enum_cfg)
      sample_enum_cfg rfl with
   | ⟨tbl, hget, hb, _, _, _, _, _, _, hround⟩ =>
     ⟨tbl, hget, hb,
      (hround sample_host [("ssid", .str "x".toList),
        ("scan_method", .str "all".toList), ("sort_by", .str "authmode".toList)]
        (by decide)).1 "all".toList (.inr rfl) rfl,
      (hround sample_host [("ssid", .str "x".toList),
        ("scan_method", .str "all".toList), ("sort_by", .str "authmode".toList)]
        (by decide)).2 "authmode".toList (.inr rfl) rfl⟩⟩

/-- C7 at the failing inputs.  The arrays `keys` of lines 316 and 332 have
no closing NULL, so `luaL_checkoption` walks on behind them: with the keys and
values of `sort_by` lying behind those of `scan_method`, the name "authmode"
given as `scan_method` is found at index 3, `vals[3]` is read behind `vals`,
and the record goes to the driver with `scan_method = 1`.  And the comparison
is `strcmp`: the five bytes `all`, zero, `x` are taken for "all".  In both
cases `wifi_sta_config` returns without error after `esp_wifi_set_storage`
and `esp_wifi_set_config`. -/
theorem wifi_sta_config_accepts_non_key :
    "authmode".toList ≠ "fast".toList ∧ "authmode".toList ≠ "all".toList ∧
    wifi_sta_config sample_host (sample_config_driver cfg_zero)
        [.table [("ssid", .str "x".toList), ("scan_method", .str "authmode".toList)]] =
      ⟨.ok 0, [.set_storage false, .set_config sample_method_cfg]⟩ ∧
    ['a', 'l', 'l', Char.ofNat 0, 'x'] ≠ "fast".toList ∧
    ['a', 'l', 'l', Char.ofNat 0, 'x'] ≠ "all".toList ∧
    wifi_sta_config sample_host (sample_config_driver cfg_zero)
        [.table [("ssid", .str "x".toList),
          ("scan_method", .str ['a', 'l', 'l', Char.ofNat 0, 'x'])]] =
      ⟨.ok 0, [.set_storage false, .set_config sample_method_cfg]⟩ ∧
    sample_method_cfg.scan_method = WIFI_ALL_CHANNEL_SCAN := by
  decide

/-- C3 at the failing inputs, for the address aa:bb:cc:dd:ee:ff.  The
twelve-digit form is rejected with the invalid-BSSID error and no driver call:
`%hhx` has no field width, so the first conversion of every format swallows all
twelve digits.  The dash form is accepted by the first format, whose `%hhx`
reads each "-bb" as a negative number: the record holds aa:45:34:23:12:01 and
`wifi_sta_getconfig` returns that text.  The colon and the space form store
the six bytes and read back as "aa:bb:cc:dd:ee:ff". -/
theorem wifi_sta_config_bssid_forms :
    wifi_sta_config sample_host (sample_config_driver cfg_zero)
        [.table (sample_bssid_table "aabbccddeeff")] =
      ⟨.error (.invalid_bssid "aabbccddeeff".toList), []⟩ ∧
    (wifi_sta_config sample_host (sample_config_driver cfg_zero)
        [.table (sample_bssid_table "aa-bb-cc-dd-ee-ff")]).calls =
      [.set_storage false, .set_config (sample_bssid_cfg [170, 69, 52, 35, 18, 1])] ∧
    wifi_sta_getconfig (sample_config_driver (sample_bssid_cfg [170, 69, 52, 35, 18, 1])) =
      .ok (getconfig_table (sample_bssid_cfg [170, 69, 52, 35, 18, 1])) ∧
    lua_getfield (getconfig_table (sample_bssid_cfg [170, 69, 52, 35, 18, 1])) "bssid" =
      .str "aa:45:34:23:12:01".toList ∧
    (wifi_sta_config sample_host (sample_config_driver cfg_zero)
        [.table (sample_bssid_table "aa:bb:cc:dd:ee:ff")]).calls =
      [.set_storage false, .set_config (sample_bssid_cfg [170, 187, 204, 221, 238, 255])] ∧
    (wifi_sta_config sample_host (sample_config_driver cfg_zero)
        [.table (sample_bssid_table "aa bb cc dd ee ff")]).calls =
      [.set_storage false, .set_config (sample_bssid_cfg [170, 187, 204, 221, 238, 255])] ∧
    lua_getfield (getconfig_table (sample_bssid_cfg [170, 187, 204, 221, 238, 255])) "bssid" =
      .str "aa:bb:cc:dd:ee:ff".toList := by
  decide

/-- C8 at the failing inputs: the texts "1:2:3:4:5:6" (octets of one digit)
and "aa:bb:cc:dd:ee:ff:99" (a seventh octet) match none of the four grammars
of six two-digit octets, yet `wifi_sta_config` accepts both and hands the
driver a record with `bssid_set = true`: `%hhx` has no field width and nothing
checks that the text ends after the sixth octet. -/
theorem wifi_sta_config_accepts_short_octets :
    spec_bssid_grammar "1:2:3:4:5:6".toList = false ∧
    wifi_sta_config sample_host (sample_config_driver cfg_zero)
        [.table (sample_bssid_table "1:2:3:4:5:6")] =
      ⟨.ok 0, [.set_storage false, .set_config (sample_bssid_cfg [1, 2, 3, 4, 5, 6])]⟩ ∧
    (sample_bssid_cfg [1, 2, 3, 4, 5, 6]).bssid_set = true ∧
    spec_bssid_grammar "aa:bb:cc:dd:ee:ff:99".toList = false ∧
    wifi_sta_config sample_host (sample_config_driver cfg_zero)
        [.table (sample_bssid_table "aa:bb:cc:dd:ee:ff:99")] =
      ⟨.ok 0, [.set_storage false,
        .set_config (sample_bssid_cfg [170, 187, 204, 221, 238, 255])]⟩ := by
  decide

/-! ## Theorems: event dispatcher -/

/-- Without a matching descriptor the search gives -1. -/
theorem event_idx_from_none (base : esp_event_base_t) (id : Int) (table : List event_desc_t) :
    (∀ desc ∈ table, ¬ (desc.event_base = base ∧ desc.event_id = id)) →
    ∀ k, event_idx_from base id table k = -1 := by
  induction table with
  | nil => intro _ k; rfl
  | cons d rest ih =>
    intro hnone k
    have hd := hnone d (by simp)
    simp only [event_idx_from, hd, if_false]
    exact ih (fun desc hdesc => hnone desc (by simp [hdesc])) _

/-- The table has six entries and the lookup of the source and id of its
i-th entry gives i: the six pairs are distinct. -/
theorem event_idx_of_entry (i : Nat) (desc : event_desc_t) (hget : events.get? i = some desc) :
    wifi_event_idx_by_id events desc.event_base desc.event_id = (i : Int) := by
  have hi : i < 6 := by
    have := (List.get?_eq_some.mp hget).1
    simpa [events] using this
  have hcases : i = 0 ∨ i = 1 ∨ i = 2 ∨ i = 3 ∨ i = 4 ∨ i = 5 := by omega
  rcases hcases with rfl | rfl | rfl | rfl | rfl | rfl <;>
    · simp only [events, List.get?, Option.some.injEq] at hget
      subst hget
      decide

/-- C11 (dispatch): for every state, event source, event id and payload: when
no descriptor of `events` has that source and id, `on_event` invokes no
callback, raises no error and returns the slots and registry as they were;
when a descriptor has them and its slot is `LUA_NOREF`, the same holds; and
when its slot is set, `on_event` makes exactly one call, of the registry value
under that slot, with the two arguments (the descriptor's name, the record its
extractor builds from an empty table and the payload), raises no error and
leaves slots and registry as they were. -/
theorem on_event_dispatch (st : EventState) (base : esp_event_base_t) (id : Int)
    (data : EventData) :
    ((∀ desc ∈ events, ¬ (desc.event_base = base ∧ desc.event_id = id)) →
      on_event st base id data = ⟨st, [], none⟩) ∧
    (∀ i desc, events.get? i = some desc → desc.event_base = base → desc.event_id = id →
      (st.event_cb.getD i LUA_NOREF = LUA_NOREF → on_event st base id data = ⟨st, [], none⟩) ∧
      (st.event_cb.getD i LUA_NOREF ≠ LUA_NOREF →
        on_event st base id data =
          ⟨st, [⟨lua_rawgeti st.registry (st.event_cb.getD i LUA_NOREF),
            [.val (.str desc.name), .table (desc.fill_cb_arg [] data)]⟩], none⟩)) := by
  constructor
  · intro hnone
    have hidx : wifi_event_idx_by_id events base id = -1 :=
      event_idx_from_none base id events hnone 0
    simp [on_event, hidx]
  · intro i desc hget hb hid
    have hidx := event_idx_of_entry i desc hget
    rw [hb, hid] at hidx
    have hget2 : events[i]? = some desc := by simpa using hget
    constructor
    · intro hslot
      have hslot2 : st.event_cb[i]?.getD LUA_NOREF = LUA_NOREF := by simpa using hslot
      simp [on_event, hidx, EventState.slot, hslot2]
    · intro hslot
      have hslot2 : ¬ st.event_cb[i]?.getD LUA_NOREF = LUA_NOREF := by simpa using hslot
      simp [on_event, hidx, EventState.slot, hslot2, hget2]

/-- Witness of C11: with handlers subscribed to `connected` and `got_ip` only,
a connected event calls the first handler once with the name and the record of
`sta_conn`; a start event, whose slot is unset, and an event of another source
call nothing. -/
theorem on_event_dispatch_witness :
    on_event ⟨[-2, -2, 1, -2, -2, 2], [(1, .func 7), (2, .func 8)]⟩ .WIFI_EVENT
        WIFI_EVENT_STA_CONNECTED sample_event_data =
      ⟨⟨[-2, -2, 1, -2, -2, 2], [(1, .func 7), (2, .func 8)]⟩,
        [⟨.func 7, [.val (.str "connected".toList),
          .table (sta_conn [] sample_event_data)]⟩], none⟩ ∧
    on_event ⟨[-2, -2, 1, -2, -2, 2], [(1, .func 7), (2, .func 8)]⟩ .WIFI_EVENT
        WIFI_EVENT_STA_START sample_event_data =
      ⟨⟨[-2, -2, 1, -2, -2, 2], [(1, .func 7), (2, .func 8)]⟩, [], none⟩ ∧
    on_event ⟨[-2, -2, 1, -2, -2, 2], [(1, .func 7), (2, .func 8)]⟩ (.other 9)
        WIFI_EVENT_STA_CONNECTED sample_event_data =
      ⟨⟨[-2, -2, 1, -2, -2, 2], [(1, .func 7), (2, .func 8)]⟩, [], none⟩ :=
  ⟨((on_event_dispatch ⟨[-2, -2, 1, -2, -2, 2], [(1, .func 7), (2, .func 8)]⟩ .WIFI_EVENT
      WIFI_EVENT_STA_CONNECTED sample_event_data).2 2
      ⟨"connected".toList, .WIFI_EVENT, WIFI_EVENT_STA_CONNECTED, sta_conn⟩ rfl rfl rfl).2
      (by decide),
   ((on_event_dispatch ⟨[-2, -2, 1, -2, -2, 2], [(1, .func 7), (2, .func 8)]⟩ .WIFI_EVENT
      WIFI_EVENT_STA_START sample_event_data).2 0
      ⟨"start".toList, .WIFI_EVENT, WIFI_EVENT_STA_START, empty_arg⟩ rfl rfl rfl).1
      (by decide),
   (on_event_dispatch ⟨[-2, -2, 1, -2, -2, 2], [(1, .func 7), (2, .func 8)]⟩ (.other 9)
      WIFI_EVENT_STA_CONNECTED sample_event_data).1 (by decide)⟩

end WifiSta
